import Mathlib

/-!
Verification of the BPMN process-diagram quality-scoring engine.

The definitions below are a shallow embedding of the scoring engine of the
SVG canvas component (`ProcessCanvas`): the element-type lookup table, the
graph adjacency helpers, nesting-depth traversal, the structuredness,
handover and naming analyzers, the dimension-score aggregation and the main
`calculateProcessScore` entry point.  JavaScript numbers are idealized as
exact rationals, modelled by the `Frac` type (an unnormalized fraction with
structural arithmetic so the kernel can evaluate it); JavaScript objects
become structures, missing fields become `Option`, and the truthiness of
`x || d` is made explicit (`jsOrNat`, `jsOrStr`).
-/

namespace BPMN

/-- Fraction type standing in for JavaScript floating-point numbers: an
integer numerator and (positive, by construction) integer denominator,
never normalized, with purely structural arithmetic. -/
structure Frac where
  num : Int
  den : Int
deriving DecidableEq, Repr

/-- Embed an integer as a fraction. -/
def Frac.ofInt (n : Int) : Frac := ⟨n, 1⟩

/-- Addition of fractions. -/
def Frac.add (a b : Frac) : Frac := ⟨a.num * b.den + b.num * a.den, a.den * b.den⟩

/-- Subtraction of fractions. -/
def Frac.sub (a b : Frac) : Frac := ⟨a.num * b.den - b.num * a.den, a.den * b.den⟩

/-- Multiplication of fractions. -/
def Frac.mul (a b : Frac) : Frac := ⟨a.num * b.num, a.den * b.den⟩

/-- Division of fractions; the sign correction keeps the denominator positive
when the divisor is negative (divisors in the engine are always positive). -/
def Frac.div (a b : Frac) : Frac :=
  if b.num < 0 then ⟨a.num * (-b.den), a.den * (-b.num)⟩ else ⟨a.num * b.den, a.den * b.num⟩

instance fracAdd : Add Frac := ⟨Frac.add⟩
instance fracSub : Sub Frac := ⟨Frac.sub⟩
instance fracMul : Mul Frac := ⟨Frac.mul⟩
instance fracDiv : Div Frac := ⟨Frac.div⟩

theorem Frac.add_def (a b : Frac) : a + b = Frac.add a b := rfl

theorem Frac.sub_def (a b : Frac) : a - b = Frac.sub a b := rfl

theorem Frac.mul_def (a b : Frac) : a * b = Frac.mul a b := rfl

theorem Frac.div_def (a b : Frac) : a / b = Frac.div a b := rfl

/-- Strict comparison by cross-multiplication (valid for positive denominators). -/
def Frac.blt (a b : Frac) : Bool := a.num * b.den < b.num * a.den

/-- Non-strict comparison by cross-multiplication. -/
def Frac.ble (a b : Frac) : Bool := a.num * b.den ≤ b.num * a.den

/-- JavaScript `Math.max` on two numbers. -/
def Frac.fmax (a b : Frac) : Frac := if a.blt b then b else a

/-- JavaScript `Math.min` on two numbers. -/
def Frac.fmin (a b : Frac) : Frac := if b.blt a then b else a

/-- The rational value denoted by a fraction (for specification statements). -/
def Frac.toRat (a : Frac) : ℚ := (a.num : ℚ) / (a.den : ℚ)

/-- JavaScript `Math.round`: round half toward positive infinity,
`round q = ⌊q + 1/2⌋`, computed on the raw fraction with integer division
(`Int./` rounds toward negative infinity for the positive denominators the
engine produces, so this is the floor). -/
def jsRound (a : Frac) : Int := (2 * a.num + a.den) / (2 * a.den)

/-- JavaScript `Math.round` applied to an integer-valued quantity. -/
def jsRoundInt (n : Int) : Int := jsRound (Frac.ofInt n)

/-- Characters of a string with surrounding whitespace removed (JS `trim`). -/
def trimChars (cs : List Char) : List Char :=
  ((cs.dropWhile Char.isWhitespace).reverse.dropWhile Char.isWhitespace).reverse

/-- JavaScript `String.prototype.trim`. -/
def strTrim (s : String) : String := ⟨trimChars s.data⟩

/-- JavaScript `String.prototype.toLowerCase` (ASCII). -/
def strToLower (s : String) : String := ⟨s.data.map Char.toLower⟩

/-- JavaScript `String.prototype.toUpperCase` (ASCII). -/
def strToUpper (s : String) : String := ⟨s.data.map Char.toUpper⟩

/-- Helper for splitting a character list on whitespace runs. -/
def wordsAux : List Char → List Char → List String
  | [], acc => if acc.isEmpty then [] else [⟨acc.reverse⟩]
  | c :: cs, acc =>
    if c.isWhitespace then
      if acc.isEmpty then wordsAux cs [] else (⟨acc.reverse⟩ : String) :: wordsAux cs []
    else wordsAux cs (c :: acc)

/-- JavaScript `label.trim().split(/\s+/)` on a string with at least one
non-whitespace character (the analyzers only split after the emptiness guard). -/
def strWords (s : String) : List String := wordsAux s.data []

/-- Whether a character list starts with the given pattern. -/
def chListStarts : List Char → List Char → Bool
  | [], _ => true
  | _ :: _, [] => false
  | p :: ps, c :: cs => p == c && chListStarts ps cs

/-- Whether a character list contains the given pattern as a contiguous run. -/
def chListHas (pat : List Char) : List Char → Bool
  | [] => pat.isEmpty
  | c :: cs => chListStarts pat (c :: cs) || chListHas pat cs

/-- JavaScript `s.includes(pat)`. -/
def strContains (s pat : String) : Bool := chListHas pat.data s.data

/-- JavaScript `s.endsWith(suf)`. -/
def strEndsWith (s suf : String) : Bool := chListStarts suf.data.reverse s.data.reverse

/-- Replace the first occurrence of a pattern in a character list. -/
def replFirstAux (pat rep : List Char) : List Char → List Char
  | [] => []
  | c :: cs =>
    if chListStarts pat (c :: cs) then rep ++ (c :: cs).drop pat.length
    else c :: replFirstAux pat rep cs

/-- JavaScript `s.replace(pat, rep)` with a string pattern (first occurrence only). -/
def strReplaceFirst (s pat rep : String) : String := ⟨replFirstAux pat.data rep.data s.data⟩

/-- JavaScript string length (code units; all analyzed text is ASCII). -/
def strLen (s : String) : Nat := s.data.length

/-- A diagram node as stored in the canvas `elements` array.  Geometry fields
are owned by the renderer and never read by the scoring engine, so they are
omitted; `name` is the label, `assignedRole`/`lane` carry the optional role. -/
structure Element where
  id : String
  type : String
  name : String := ""
  assignedRole : Option String := none
  lane : Option String := none
deriving DecidableEq, Repr

/-- A directed connection as stored in the canvas `connections` array. -/
structure Connection where
  id : String
  sourceId : String
  targetId : String
  type : String := "SequenceFlow"
  label : String := ""
deriving DecidableEq, Repr

/-- A snapshot of the canvas state read by the scoring engine. -/
structure Canvas where
  elements : List Element
  connections : List Connection
deriving DecidableEq, Repr

/-- The three distinct `cfcFormula` lambdas appearing in `ELEMENT_TYPES`,
defunctionalized so the table is a decidable datum:
`fanOut` is `(fanout) => fanout`, `constOne` is `() => 1`, and
`expMinusOne` is `(fanout) => Math.pow(2, fanout) - 1`. -/
inductive CfcFormula where
  | fanOut
  | constOne
  | expMinusOne
deriving DecidableEq, Repr

/-- Apply a `cfcFormula` to a fan-out. -/
def CfcFormula.apply : CfcFormula → Nat → Nat
  | .fanOut, n => n
  | .constOne, _ => 1
  | .expMinusOne, n => 2 ^ n - 1

/-- The scoring-relevant fields of one `ELEMENT_TYPES` entry: the gateway
flag, the `cfcType` tag and the `cfcFormula`.  Rendering fields (size,
fill, icon, ...) are opaque to the engine. -/
structure TypeConfig where
  isGateway : Bool
  cfcType : Option String := none
  cfcFormula : Option CfcFormula := none
deriving DecidableEq, Repr

/-- The entries of the `ELEMENT_TYPES` object, in source order. -/
def typeTable : List (String × TypeConfig) :=
  [("StartEvent", ⟨false, none, none⟩),
   ("EndEvent", ⟨false, none, none⟩),
   ("IntermediateEvent", ⟨false, none, none⟩),
   ("TimerStartEvent", ⟨false, none, none⟩),
   ("MessageStartEvent", ⟨false, none, none⟩),
   ("UserTask", ⟨false, none, none⟩),
   ("ServiceTask", ⟨false, none, none⟩),
   ("ScriptTask", ⟨false, none, none⟩),
   ("ManualTask", ⟨false, none, none⟩),
   ("BusinessRuleTask", ⟨false, none, none⟩),
   ("SendTask", ⟨false, none, none⟩),
   ("ReceiveTask", ⟨false, none, none⟩),
   ("ExclusiveGateway", ⟨true, some "XOR", some .fanOut⟩),
   ("ParallelGateway", ⟨true, some "AND", some .constOne⟩),
   ("InclusiveGateway", ⟨true, some "OR", some .expMinusOne⟩),
   ("EventBasedGateway", ⟨true, some "XOR", some .fanOut⟩),
   ("SubProcess", ⟨false, none, none⟩),
   ("CallActivity", ⟨false, none, none⟩),
   ("DataObject", ⟨false, none, none⟩),
   ("DataStore", ⟨false, none, none⟩),
   ("TextAnnotation", ⟨false, none, none⟩),
   ("Group", ⟨false, none, none⟩),
   ("MessageIntermediateCatchEvent", ⟨false, none, none⟩),
   ("MessageEndEvent", ⟨false, none, none⟩),
   ("TimerIntermediateEvent", ⟨false, none, none⟩),
   ("SignalStartEvent", ⟨false, none, none⟩),
   ("SignalIntermediateEvent", ⟨false, none, none⟩),
   ("SignalEndEvent", ⟨false, none, none⟩),
   ("ErrorEndEvent", ⟨false, none, none⟩),
   ("ErrorBoundaryEvent", ⟨false, none, none⟩),
   ("TerminateEndEvent", ⟨false, none, none⟩),
   ("ComplexGateway", ⟨true, some "COMPLEX", some .expMinusOne⟩),
   ("Pool", ⟨false, none, none⟩),
   ("Lane", ⟨false, none, none⟩),
   ("RecordCreateTask", ⟨false, none, none⟩),
   ("RecordUpdateTask", ⟨false, none, none⟩),
   ("RecordDeleteTask", ⟨false, none, none⟩),
   ("RecordLookupTask", ⟨false, none, none⟩),
   ("AssignmentTask", ⟨false, none, none⟩),
   ("LoopTask", ⟨false, none, none⟩),
   ("ActionCallTask", ⟨false, none, none⟩),
   ("ScreenTask", ⟨false, none, none⟩),
   ("WaitEvent", ⟨false, none, none⟩)]

/-- Key lookup in an association list (JS object property access). -/
def tableLookup : List (String × TypeConfig) → String → Option TypeConfig
  | [], _ => none
  | (k, v) :: rest, t => if t == k then some v else tableLookup rest t

/-- The `ELEMENT_TYPES` lookup, restricted to the fields the scoring engine
reads.  Unknown keys yield `none` (JS `undefined`). -/
def ELEMENT_TYPES (t : String) : Option TypeConfig := tableLookup typeTable t

/-- `getOutgoingFlows`: connections whose source is the given element. -/
def getOutgoingFlows (c : Canvas) (elementId : String) : List Connection :=
  c.connections.filter (fun conn => conn.sourceId == elementId)

/-- `getIncomingFlows`: connections whose target is the given element. -/
def getIncomingFlows (c : Canvas) (elementId : String) : List Connection :=
  c.connections.filter (fun conn => conn.targetId == elementId)

/-- Find an element of the canvas by id (JS `elements.find`). -/
def findElement (c : Canvas) (elementId : String) : Option Element :=
  c.elements.find? (fun el => el.id == elementId)

/-- `isSplitGateway`: the element exists, its type is a gateway type, and it
has more than one outgoing connection. -/
def isSplitGateway (c : Canvas) (elementId : String) : Bool :=
  match findElement c elementId with
  | none => false
  | some el =>
    match ELEMENT_TYPES el.type with
    | none => false
    | some cfg => cfg.isGateway && (getOutgoingFlows c elementId).length > 1

/-- `isJoinGateway`: the element exists, its type is a gateway type, and it
has more than one incoming connection. -/
def isJoinGateway (c : Canvas) (elementId : String) : Bool :=
  match findElement c elementId with
  | none => false
  | some el =>
    match ELEMENT_TYPES el.type with
    | none => false
    | some cfg => cfg.isGateway && (getIncomingFlows c elementId).length > 1

/-- One BFS queue entry of `calculateNestingDepths`: an element id, the depth
at which it was reached, and a per-frame snapshot of the open-splits stack
(pairs of gateway id and `cfcType`). -/
structure Frame where
  elementId : String
  depth : Nat
  openSplits : List (String × String)
deriving DecidableEq, Repr

/-- Lookup in the nesting-depth association list (JS `nestingDepths[id]`). -/
def lookupDepth : List (String × Nat) → String → Option Nat
  | [], _ => none
  | (k, v) :: rest, elementId => if k == elementId then some v else lookupDepth rest elementId

/-- Assignment in the nesting-depth association list (JS `nestingDepths[id] = v`). -/
def setDepth : List (String × Nat) → String → Nat → List (String × Nat)
  | [], elementId, v => [(elementId, v)]
  | (k, w) :: rest, elementId, v =>
    if k == elementId then (elementId, v) :: rest else (k, w) :: setDepth rest elementId v

/-- JS `openSplits.findLastIndex(s => s.type === t)` followed by `splice`:
remove the most recent open split of the given type, `none` when absent. -/
def removeLastByType (t : String) : List (String × String) → Option (List (String × String))
  | [] => none
  | x :: xs =>
    match removeLastByType t xs with
    | some xs2 => some (x :: xs2)
    | none => if x.2 == t then some xs else none

/-- Whether an element-kind string is one of the gateway kinds. -/
def isGatewayType (t : String) : Bool :=
  match ELEMENT_TYPES t with
  | some cfg => cfg.isGateway
  | none => false

/-- The gateway-handling block of one BFS iteration: returns the depth and
open-splits stack propagated to the successors, and the updated depth map. -/
def bfsProcess (c : Canvas) (f : Frame) (el : Element) (depths : List (String × Nat)) :
    Nat × List (String × String) × List (String × Nat) :=
  match ELEMENT_TYPES el.type with
  | some cfg =>
    if cfg.isGateway then
      let isSplit := isSplitGateway c f.elementId
      let isJoin := isJoinGateway c f.elementId
      if isSplit && !isJoin then
        -- pure split: increase depth, push onto the open-splits stack
        (f.depth + 1, f.openSplits ++ [(f.elementId, cfg.cfcType.getD "")],
         setDepth depths f.elementId (f.depth + 1))
      else if isJoin && !isSplit then
        -- pure join: recorded at the depth before closing
        match removeLastByType (cfg.cfcType.getD "") f.openSplits with
        | some rest => (f.depth - 1, rest, setDepth depths f.elementId f.depth)
        | none => (f.depth, f.openSplits, setDepth depths f.elementId f.depth)
      else if isSplit && isJoin then
        -- mixed gateway: net new split
        (f.depth + 1, f.openSplits, setDepth depths f.elementId (f.depth + 1))
      else
        -- gateway with single in/out
        (f.depth, f.openSplits, setDepth depths f.elementId (max 1 f.depth))
    else (f.depth, f.openSplits, depths)
  | none => (f.depth, f.openSplits, depths)

/-- The `while (queue.length > 0)` loop of `calculateNestingDepths`, written
with explicit fuel (the fuel passed by `nestingTraversal` bounds the number
of iterations, so the loop drains its queue exactly as the source does).
Returns the recorded depths and the visited set. -/
def bfsLoop (c : Canvas) : Nat → List Frame → List String → List (String × Nat) →
    List (String × Nat) × List String
  | 0, _, visited, depths => (depths, visited)
  | _ + 1, [], visited, depths => (depths, visited)
  | fuel + 1, f :: queue, visited, depths =>
    if visited.contains f.elementId then bfsLoop c fuel queue visited depths
    else
      let visited2 := f.elementId :: visited
      match findElement c f.elementId with
      | none => bfsLoop c fuel queue visited2 depths
      | some el =>
        let step := bfsProcess c f el depths
        let succs := ((getOutgoingFlows c f.elementId).filter
          (fun conn => !(visited2.contains conn.targetId))).map
          (fun conn => Frame.mk conn.targetId step.1 step.2.1)
        bfsLoop c fuel (queue ++ succs) visited2 step.2.2

/-- The start events `calculateNestingDepths` seeds its traversal with
(exactly the three kinds tested in the source). -/
def nestingStartEvents (c : Canvas) : List Element :=
  c.elements.filter (fun el =>
    el.type == "StartEvent" || el.type == "TimerStartEvent" || el.type == "MessageStartEvent")

/-- Fuel that bounds the iteration count of the BFS loop: every iteration
consumes one queue entry, and at most `starts + processedIds * connections`
entries are ever enqueued. -/
def nestingFuel (c : Canvas) : Nat :=
  (c.elements.length + c.connections.length + 1) * (c.connections.length + 1)

/-- The BFS traversal of `calculateNestingDepths` (depths before the fallback
pass, together with the visited set). -/
def nestingTraversal (c : Canvas) : List (String × Nat) × List String :=
  bfsLoop c (nestingFuel c) ((nestingStartEvents c).map (fun el => Frame.mk el.id 0 [])) [] []

/-- One step of the final pass of `calculateNestingDepths`: a gateway whose
entry is missing or `0` (JS falsy) is assigned depth 1. -/
def depthFallbackStep (acc : List (String × Nat)) (el : Element) : List (String × Nat) :=
  if isGatewayType el.type then
    match lookupDepth acc el.id with
    | some v => if v == 0 then setDepth acc el.id 1 else acc
    | none => setDepth acc el.id 1
  else acc

/-- The final pass of `calculateNestingDepths`, folded over all elements. -/
def applyDepthFallback (c : Canvas) (depths : List (String × Nat)) : List (String × Nat) :=
  c.elements.foldl depthFallbackStep depths

/-- `calculateNestingDepths`: depth 1 for every gateway when no start event
exists; otherwise the BFS result with the fallback pass applied. -/
def calculateNestingDepths (c : Canvas) : List (String × Nat) :=
  if (nestingStartEvents c).isEmpty then
    (c.elements.filter (fun el => isGatewayType el.type)).map (fun el => (el.id, 1))
  else applyDepthFallback c (nestingTraversal c).1

/-- The set of element ids visited by the nesting-depth traversal (empty when
there is no start event, since the BFS never runs). -/
def nestingVisited (c : Canvas) : List String :=
  if (nestingStartEvents c).isEmpty then [] else (nestingTraversal c).2

/-- JS `nestingDepths[id] || d`: `undefined` and `0` both fall back. -/
def jsOrNat (o : Option Nat) (d : Nat) : Nat :=
  match o with
  | some v => if v == 0 then d else v
  | none => d

/-- The per-`cfcType` split/join buckets of `analyzeStructuredness`
(`COMPLEX` gateways fall outside all six buckets, as in the source where
`splits[cfcType]?.push` is skipped by optional chaining). -/
structure StructBuckets where
  splitsXOR : List Element := []
  splitsAND : List Element := []
  splitsOR : List Element := []
  joinsXOR : List Element := []
  joinsAND : List Element := []
  joinsOR : List Element := []
deriving DecidableEq, Repr

/-- Bucketize one element (the `forEach` body of `analyzeStructuredness`). -/
def structBucketStep (c : Canvas) (b : StructBuckets) (el : Element) : StructBuckets :=
  match ELEMENT_TYPES el.type with
  | none => b
  | some cfg =>
    if cfg.isGateway then
      match cfg.cfcType with
      | none => b
      | some t =>
        let isSplit := isSplitGateway c el.id
        let isJoin := isJoinGateway c el.id
        let b1 :=
          if isSplit then
            if t == "XOR" then { b with splitsXOR := b.splitsXOR ++ [el] }
            else if t == "AND" then { b with splitsAND := b.splitsAND ++ [el] }
            else if t == "OR" then { b with splitsOR := b.splitsOR ++ [el] }
            else b
          else b
        if isJoin then
          if t == "XOR" then { b1 with joinsXOR := b1.joinsXOR ++ [el] }
          else if t == "AND" then { b1 with joinsAND := b1.joinsAND ++ [el] }
          else if t == "OR" then { b1 with joinsOR := b1.joinsOR ++ [el] }
          else b1
        else b1
    else b

/-- An unmatched split or join entry of `analyzeStructuredness` (carries the
offending element for UI highlighting). -/
structure Unmatched where
  element : Element
  type : String
  message : String
deriving DecidableEq, Repr

/-- A type-mismatch entry of `analyzeStructuredness`. -/
structure Mismatch where
  message : String
  severity : String
deriving DecidableEq, Repr

/-- The return value of `analyzeStructuredness`. -/
structure StructResult where
  score : Int
  matchedPairs : Nat
  totalSplits : Nat
  totalJoins : Nat
  unmatchedSplits : List Unmatched
  unmatchedJoins : List Unmatched
  typeMismatches : List Mismatch
  buckets : StructBuckets
deriving DecidableEq, Repr

/-- Unmatched-split entries of one bucket (the surplus splits beyond
`joinCount`, in bucket order, as indexed by `splits[type][joinCount + i]`). -/
def unmatchedOf (splits joins : List Element) (t : String) (side other : String) : List Unmatched :=
  (splits.drop joins.length).map (fun el =>
    Unmatched.mk el t (t ++ " " ++ side ++ " without matching " ++ t ++ " " ++ other))

/-- `analyzeStructuredness`: bucket the gateways per `cfcType`, match splits
with joins per type, flag the surplus, and score the balance. -/
def analyzeStructuredness (c : Canvas) : StructResult :=
  let b := c.elements.foldl (structBucketStep c) {}
  let matchedPairs := min b.splitsXOR.length b.joinsXOR.length +
    min b.splitsAND.length b.joinsAND.length + min b.splitsOR.length b.joinsOR.length
  let totalSplits := b.splitsXOR.length + b.splitsAND.length + b.splitsOR.length
  let totalJoins := b.joinsXOR.length + b.joinsAND.length + b.joinsOR.length
  let unmatchedSplits := unmatchedOf b.splitsXOR b.joinsXOR "XOR" "split" "join" ++
    unmatchedOf b.splitsAND b.joinsAND "AND" "split" "join" ++
    unmatchedOf b.splitsOR b.joinsOR "OR" "split" "join"
  let unmatchedJoins := unmatchedOf b.joinsXOR b.splitsXOR "XOR" "join" "split" ++
    unmatchedOf b.joinsAND b.splitsAND "AND" "join" "split" ++
    unmatchedOf b.joinsOR b.splitsOR "OR" "join" "split"
  let typeMismatches : List Mismatch :=
    if totalSplits ≠ totalJoins then
      [⟨s!"Unbalanced gateways: {totalSplits} splits vs {totalJoins} joins", "medium"⟩]
    else []
  let base : Int :=
    if totalSplits > 0 then
      jsRound ((Frac.ofInt matchedPairs / Frac.ofInt totalSplits) * Frac.ofInt 100)
    else 100
  let score := max 0 (base - typeMismatches.length * 10)
  ⟨score, matchedPairs, totalSplits, totalJoins, unmatchedSplits, unmatchedJoins, typeMismatches, b⟩

/-- A role transition recorded by `calculateHandoverComplexity` (the JS
fields `from`/`to` are rendered as `fromRole`/`toRole`). -/
structure Transition where
  fromRole : String
  toRole : String
  type : String
  points : Frac
deriving DecidableEq, Repr

/-- State threaded through the connection loop of `calculateHandoverComplexity`. -/
structure HandoverState where
  score : Frac
  seenRoles : List String
  transitions : List Transition
deriving DecidableEq, Repr

/-- JS `a || d` on optional strings (`undefined` and `''` are falsy). -/
def jsOrStr (o : Option String) (d : String) : String :=
  match o with
  | some s => if s == "" then d else s
  | none => d

/-- The role of an element: `el.assignedRole || el.lane || 'default'`. -/
def roleOf (el : Element) : String := jsOrStr el.assignedRole (jsOrStr el.lane "default")

/-- JS `Set.add`: append only when absent (preserving insertion order). -/
def addRole (roles : List String) (r : String) : List String :=
  if roles.contains r then roles else roles ++ [r]

/-- One iteration of the connection loop of `calculateHandoverComplexity`:
skip when an endpoint is missing or when both ends carry the sentinel role;
otherwise a handover into a new role costs 1.5, into a seen role 1.0, and
the (non-sentinel) source role is recorded as seen. -/
def handoverStep (c : Canvas) (st : HandoverState) (conn : Connection) : HandoverState :=
  match findElement c conn.sourceId, findElement c conn.targetId with
  | some source, some target =>
    let sourceRole := roleOf source
    let targetRole := roleOf target
    if sourceRole == "default" && targetRole == "default" then st
    else
      let st1 :=
        if sourceRole != targetRole && targetRole != "default" then
          if !(st.seenRoles.contains targetRole) then
            { st with
              score := st.score + Frac.mk 15 10,
              seenRoles := addRole st.seenRoles targetRole,
              transitions := st.transitions ++ [⟨sourceRole, targetRole, "new", Frac.mk 15 10⟩] }
          else
            { st with
              score := st.score + Frac.ofInt 1,
              transitions := st.transitions ++ [⟨sourceRole, targetRole, "return", Frac.ofInt 1⟩] }
        else st
      if sourceRole != "default" then { st1 with seenRoles := addRole st1.seenRoles sourceRole }
      else st1
  | _, _ => st

/-- The return value of `calculateHandoverComplexity`. -/
structure HandoverResult where
  baseScore : Frac
  normalizedScore : Frac
  uniqueRoles : Nat
  transitions : List Transition
  hasRoleData : Bool
deriving DecidableEq, Repr

/-- `calculateHandoverComplexity`: fold the connection loop, then rescale the
raw point total onto a 0-10 scale anchored at a 1.5-point minimum.  (The
source also computes an `activities` list that it never reads; it is omitted.) -/
def calculateHandoverComplexity (c : Canvas) : HandoverResult :=
  let st := c.connections.foldl (handoverStep c) ⟨Frac.ofInt 0, [], []⟩
  let normalized : Frac :=
    if (Frac.mk 15 10).blt st.score then
      Frac.fmin (Frac.ofInt 10) (((st.score - Frac.mk 15 10) / Frac.mk 85 10) * Frac.ofInt 10)
    else Frac.ofInt 0
  let normalizedRounded := Frac.ofInt (jsRound (normalized * Frac.ofInt 10)) / Frac.ofInt 10
  ⟨st.score, normalizedRounded, st.seenRoles.length, st.transitions,
   st.seenRoles.length > 0 && !(st.seenRoles.contains "default")⟩

/-- The `ACTION_VERBS` table of the naming analyzer. -/
def ACTION_VERBS : List String :=
  ["send", "receive", "notify", "inform", "communicate", "email", "call",
   "process", "handle", "manage", "execute", "perform", "complete", "finish",
   "review", "approve", "reject", "validate", "verify", "check", "confirm", "assess",
   "create", "read", "update", "delete", "add", "remove", "modify", "edit",
   "calculate", "compute", "analyze", "evaluate", "determine", "generate",
   "prepare", "draft", "write", "sign", "submit", "file", "archive", "store",
   "assign", "allocate", "delegate", "schedule", "plan", "prioritize",
   "get", "fetch", "retrieve", "obtain", "request", "order", "collect",
   "decide", "select", "choose", "pick", "resolve",
   "start", "begin", "initiate", "end", "close", "terminate", "cancel",
   "convert", "transform", "translate", "format", "export", "import",
   "monitor", "track", "log", "record", "register", "report"]

/-- The `DEFAULT_NAMES` table of generic placeholder labels. -/
def DEFAULT_NAMES : List String :=
  ["start", "end", "task", "gateway", "parallel", "inclusive", "exclusive",
   "event", "service task", "script task", "manual task", "user task",
   "sub-process", "subprocess", "activity", "action", "step", "process",
   "business rule task", "send task", "receive task", "call activity"]

/-- The `ACTION_NOUN_SUFFIXES` table. -/
def ACTION_NOUN_SUFFIXES : List String :=
  ["ing", "tion", "sion", "ment", "ance", "ence", "ness", "ity", "al"]

/-- The `actionNounToVerb` conversion table, in object insertion order. -/
def actionNounToVerb : List (String × String) :=
  [("sending", "Send"), ("receiving", "Receive"), ("processing", "Process"),
   ("reviewing", "Review"), ("approving", "Approve"), ("creating", "Create"),
   ("updating", "Update"), ("deleting", "Delete"), ("checking", "Check"),
   ("validation", "Validate"), ("verification", "Verify"), ("calculation", "Calculate"),
   ("notification", "Notify"), ("submission", "Submit"), ("completion", "Complete"),
   ("assignment", "Assign"), ("management", "Manage"), ("preparation", "Prepare")]

/-- The `commonAbbreviations` allowlist of the abbreviation check. -/
def commonAbbreviations : List String :=
  ["id", "api", "url", "pdf", "crm", "erp", "hr", "it", "kpi"]

/-- Strip all whitespace (JS `d.replace(/\s+/g, '')`). -/
def stripSpaces (s : String) : String := ⟨s.data.filter (fun ch => !ch.isWhitespace)⟩

/-- JS `s.slice(0, -3)`: drop the last three characters. -/
def dropLast3 (s : String) : String := ⟨s.data.take (s.data.length - 3)⟩

/-- The return value of `analyzeLabel` (`wordCount` is absent on the
missing-label early return, as in the source object literal). -/
structure LabelAnalysis where
  score : Frac
  issues : List String
  suggestion : String
  isDefault : Bool
  isVerbObject : Bool
  isActionNoun : Bool
  wordCount : Option Nat
deriving DecidableEq, Repr

/-- `analyzeLabel`: score one activity label against the verb-object
guidelines, starting at 1.0 and only deducting, clamped to `[0, 1]`. -/
def analyzeLabel (label : String) (elementType : String) : LabelAnalysis :=
  if strTrim label == "" then
    ⟨Frac.ofInt 0, ["Missing label"], "Add a descriptive verb-object label",
     true, false, false, none⟩
  else
    let normalizedLabel := strToLower (strTrim label)
    let words := strWords label
    let firstWord := strToLower (words.headD "")
    -- Check 2: default/generic name
    let isDefault := DEFAULT_NAMES.any (fun d =>
      normalizedLabel == d || normalizedLabel == stripSpaces d)
    let score1 : Frac := if isDefault then Frac.ofInt 1 - Frac.mk 5 10 else Frac.ofInt 1
    let issues1 : List String := if isDefault then ["Generic/default name"] else []
    let suggestion1 : String :=
      if isDefault then
        let n := strTrim (strReplaceFirst elementType "Task" "")
        "Replace with specific action like \"Process " ++ (if n == "" then "Request" else n) ++ "\""
      else ""
    -- Check 3: leading action verb (exact or with trailing s/es)
    let startsWithVerb := ACTION_VERBS.any (fun v =>
      firstWord == v || firstWord == v ++ "s" || firstWord == v ++ "es")
    -- Check 4: action-noun suffix on the last word
    let lastWord := strToLower (words.getLastD "")
    let isActionNoun := ACTION_NOUN_SUFFIXES.any (fun suf =>
      strEndsWith lastWord suf && strLen lastWord > strLen suf + 2)
    let styled : Frac × List String × String :=
      if startsWithVerb then
        if words.length ≥ 2 then (score1, issues1, suggestion1)
        else (score1 - Frac.mk 2 10, issues1 ++ ["Missing object (what is being done?)"],
          "Add object: \"" ++ label ++ " [something]\"")
      else if isActionNoun then
        let conv := actionNounToVerb.find? (fun p =>
          strContains lastWord (dropLast3 p.1) || lastWord == p.1)
        let sugg :=
          match conv with
          | some p => "Try: \"" ++ p.2 ++ " " ++ String.intercalate " " words.dropLast ++ "\""
          | none => "Restructure to verb-object format"
        (score1 - Frac.mk 3 10, issues1 ++ ["Action-noun style (should be verb-object)"], sugg)
      else if words.length == 1 then
        (score1 - Frac.mk 3 10, issues1 ++ ["Single word label - add verb and context"],
          "Try: \"Process " ++ label ++ "\" or \"Review " ++ label ++ "\"")
      else if words.length ≥ 2 then
        (score1 - Frac.mk 2 10, issues1 ++ ["Does not start with action verb"],
          "Try starting with: Send, Process, Review, Create, Update, Check...")
      else (score1, issues1, suggestion1)
    let score2 := styled.1
    let issues2 := styled.2.1
    let suggestion2 := styled.2.2
    -- Check 5: too brief
    let brief : Frac × List String :=
      if words.length < 2 && !isDefault then
        (score2 - Frac.mk 1 10,
         if issues2.contains "Single word label - add verb and context" then issues2
         else issues2 ++ ["Label too brief"])
      else (score2, issues2)
    -- Check 6: too verbose
    let verbose : Frac × List String × String :=
      if words.length > 6 then
        (brief.1 - Frac.mk 1 10, brief.2 ++ ["Label too verbose (>6 words)"],
         if suggestion2 == "" then "Consider shortening the label" else suggestion2)
      else (brief.1, brief.2, suggestion2)
    -- Check 7: short all-caps tokens outside the abbreviation allowlist
    let hasUncommonAbbreviation := words.any (fun w =>
      strLen w ≤ 3 && w == strToUpper w && !(commonAbbreviations.contains (strToLower w)))
    let final : Frac × List String :=
      if hasUncommonAbbreviation then
        (verbose.1 - Frac.mk 1 10, verbose.2.1 ++ ["Contains abbreviations - spell out for clarity"])
      else (verbose.1, verbose.2.1)
    ⟨Frac.fmax (Frac.ofInt 0) (Frac.fmin (Frac.ofInt 1) final.1), final.2, verbose.2.2,
     isDefault, startsWithVerb && words.length ≥ 2, isActionNoun, some words.length⟩

/-- One per-activity entry of `analyzeNamingQuality.details`. -/
structure LabelResult where
  elementId : String
  elementType : String
  label : String
  analysis : LabelAnalysis
deriving DecidableEq, Repr

/-- One entry of `analyzeNamingQuality.issues`. -/
structure NamingIssue where
  elementId : String
  label : String
  issue : String
  suggestion : String
deriving DecidableEq, Repr

/-- The return value of `analyzeNamingQuality`. -/
structure NamingResult where
  overallScore : Int
  analyzedCount : Nat
  goodLabels : Nat
  acceptableLabels : Nat
  poorLabels : Nat
  details : List LabelResult
  issues : List NamingIssue
deriving DecidableEq, Repr

/-- Whether an element kind is an activity (task kinds, sub-processes and
call activities), as tested by `el.type.includes('Task') || ...`. -/
def isActivityType (t : String) : Bool :=
  strContains t "Task" || t == "SubProcess" || t == "CallActivity"

/-- `analyzeNamingQuality`: analyze every activity label and aggregate. -/
def analyzeNamingQuality (c : Canvas) : NamingResult :=
  let activities := c.elements.filter (fun el => isActivityType el.type)
  let details := activities.map (fun el =>
    LabelResult.mk el.id el.type el.name (analyzeLabel el.name el.type))
  let analyzedCount := details.length
  let totalScore := details.foldl (fun acc r => acc + r.analysis.score) (Frac.ofInt 0)
  let overallScore : Int :=
    if analyzedCount > 0 then
      jsRound ((totalScore / Frac.ofInt analyzedCount) * Frac.ofInt 100)
    else 100
  let issues := (details.filter (fun r => r.analysis.score.blt (Frac.mk 7 10))).map (fun r =>
    NamingIssue.mk r.elementId r.label (String.intercalate ", " r.analysis.issues)
      r.analysis.suggestion)
  ⟨overallScore, analyzedCount,
   (details.filter (fun r => Frac.ble (Frac.mk 8 10) r.analysis.score)).length,
   (details.filter (fun r =>
     Frac.ble (Frac.mk 5 10) r.analysis.score && r.analysis.score.blt (Frac.mk 8 10))).length,
   (details.filter (fun r => r.analysis.score.blt (Frac.mk 5 10))).length,
   details, issues⟩

/-- An issue record as pushed by the analyzers and the threshold checks. -/
structure Issue where
  type : String
  elementId : Option String := none
  elementName : Option String := none
  message : String
  suggestion : Option String := none
  severity : String
  guideline : Option String := none
deriving DecidableEq, Repr

/-- One `gatewayDetails` entry of `calculateProcessScore`. -/
structure GatewayDetail where
  elementId : String
  name : String
  type : Option String
  fanout : Nat
  baseCfc : Nat
  nestingLevel : Nat
  weightedCfc : Nat
deriving DecidableEq, Repr

/-- Accumulator for the per-element loop of `calculateProcessScore`. -/
structure CfcAcc where
  totalCFC : Nat := 0
  weightedCFC : Nat := 0
  cfcXOR : Nat := 0
  cfcOR : Nat := 0
  cfcAND : Nat := 0
  noajs : Nat := 0
  noa : Nat := 0
  orGatewayCount : Nat := 0
  gatewayCount : Nat := 0
  startEventCount : Nat := 0
  endEventCount : Nat := 0
  issues : List Issue := []
  gatewayDetails : List GatewayDetail := []
deriving DecidableEq, Repr

/-- JS `el.name || 'Unnamed'` in issue messages. -/
def nameOrUnnamed (s : String) : String := if s == "" then "Unnamed" else s

/-- The body of the `this.elements.forEach` loop of `calculateProcessScore`:
count NOAJS/NOA/start/end events, and for split gateways accumulate the CFC
contribution, the per-type breakdown, the detail record and the fan-out and
nesting warnings. -/
def cfcStep (c : Canvas) (depths : List (String × Nat)) (acc : CfcAcc) (el : Element) : CfcAcc :=
  match ELEMENT_TYPES el.type with
  | none => acc
  | some cfg =>
    let acc :=
      { acc with
        noajs := if ["TextAnnotation", "Group", "DataObject", "DataStore"].contains el.type
          then acc.noajs else acc.noajs + 1 }
    let acc := { acc with noa := if isActivityType el.type then acc.noa + 1 else acc.noa }
    let acc :=
      { acc with
        startEventCount := if strContains el.type "StartEvent"
          then acc.startEventCount + 1 else acc.startEventCount }
    let acc :=
      { acc with
        endEventCount := if el.type == "EndEvent"
          then acc.endEventCount + 1 else acc.endEventCount }
    if cfg.isGateway then
      match cfg.cfcFormula with
      | none => acc
      | some f =>
        let acc1 := { acc with gatewayCount := acc.gatewayCount + 1 }
        let outgoing := (getOutgoingFlows c el.id).length
        let nestingLevel := jsOrNat (lookupDepth depths el.id) 1
        -- only split gateways contribute to CFC
        if outgoing > 1 then
          let baseCfc := f.apply outgoing
          let nestedCfc := baseCfc * nestingLevel
          let acc2 :=
            { acc1 with
              totalCFC := acc1.totalCFC + baseCfc,
              weightedCFC := acc1.weightedCFC + nestedCfc,
              gatewayDetails := acc1.gatewayDetails ++
                [⟨el.id, el.name, cfg.cfcType, outgoing, baseCfc, nestingLevel, nestedCfc⟩] }
          let acc3 :=
            if cfg.cfcType == some "XOR" then { acc2 with cfcXOR := acc2.cfcXOR + baseCfc }
            else if cfg.cfcType == some "OR" then
              let acc' :=
                { acc2 with
                  cfcOR := acc2.cfcOR + baseCfc,
                  orGatewayCount := acc2.orGatewayCount + 1 }
              if outgoing ≥ 3 then
                let nm := nameOrUnnamed el.name
                { acc' with
                  issues := acc'.issues ++
                    [⟨"warning", some el.id, some el.name,
                      s!"OR gateway \"{nm}\" with {outgoing} paths has CFC of {baseCfc} (exponential!)",
                      none, "high", some "7PMG G5"⟩] }
              else acc'
            else if cfg.cfcType == some "AND" then { acc2 with cfcAND := acc2.cfcAND + baseCfc }
            else acc2
          if nestingLevel ≥ 3 then
            let nm := nameOrUnnamed el.name
            { acc3 with
              issues := acc3.issues ++
                [⟨"warning", some el.id, some el.name,
                  s!"Gateway \"{nm}\" is nested {nestingLevel} levels deep (complexity multiplier: {nestingLevel}x)",
                  none, "medium", some "7PMG G4"⟩] }
          else acc3
        else acc1
    else acc

/-- The seven dimension scores (each rounded to an integer). -/
structure Dimensions where
  structural : Int
  controlFlow : Int
  structuredness : Int
  naming : Int
  modularity : Int
  startEnd : Int
  handover : Int
deriving DecidableEq, Repr

/-- `calculateDimensionScores`: piecewise-linear 0-100 scores per dimension.
The unused parameters of the source object signature are kept. -/
def calculateDimensionScores (_totalCFC weightedCFC noajs _noa _gatewayCount _orGatewayCount : Nat)
    (structurednessScore : Int) (handoverScore : Frac) (namingScore : Int)
    (startEventCount endEventCount : Nat) : Dimensions :=
  let structural : Frac :=
    Frac.fmax (Frac.ofInt 0) (Frac.fmin (Frac.ofInt 100)
      (if noajs ≤ 17 then Frac.ofInt 100
       else if noajs ≤ 33 then
         Frac.ofInt 100 - ((Frac.ofInt noajs - Frac.ofInt 17) / Frac.ofInt 16) * Frac.ofInt 40
       else if noajs ≤ 50 then
         Frac.ofInt 60 - ((Frac.ofInt noajs - Frac.ofInt 33) / Frac.ofInt 17) * Frac.ofInt 40
       else
         Frac.ofInt 20 - Frac.fmin (Frac.ofInt 20) ((Frac.ofInt noajs - Frac.ofInt 50) * Frac.ofInt 2)))
  let controlFlow : Frac :=
    Frac.fmax (Frac.ofInt 0) (Frac.fmin (Frac.ofInt 100)
      (if weightedCFC ≤ 5 then Frac.ofInt 100
       else if weightedCFC ≤ 15 then
         Frac.ofInt 100 - ((Frac.ofInt weightedCFC - Frac.ofInt 5) / Frac.ofInt 10) * Frac.ofInt 50
       else if weightedCFC ≤ 30 then
         Frac.ofInt 50 - ((Frac.ofInt weightedCFC - Frac.ofInt 15) / Frac.ofInt 15) * Frac.ofInt 50
       else Frac.ofInt 0))
  let modularity : Frac :=
    Frac.fmax (Frac.ofInt 0) (Frac.fmin (Frac.ofInt 100)
      (if noajs ≤ 30 then Frac.ofInt 100
       else if noajs ≤ 50 then
         Frac.ofInt 100 - ((Frac.ofInt noajs - Frac.ofInt 30) / Frac.ofInt 20) * Frac.ofInt 50
       else
         Frac.ofInt 50 - Frac.fmin (Frac.ofInt 50) ((Frac.ofInt noajs - Frac.ofInt 50) * Frac.ofInt 2)))
  let startEnd0 : Frac := Frac.ofInt 100
  let startEnd1 : Frac :=
    if startEventCount > 1 then
      startEnd0 - Frac.ofInt ((startEventCount : Int) - 1) * Frac.ofInt 15
    else startEnd0
  let startEnd2 : Frac :=
    if endEventCount > 2 then
      startEnd1 - Frac.ofInt ((endEventCount : Int) - 2) * Frac.ofInt 10
    else startEnd1
  let startEnd := Frac.fmax (Frac.ofInt 0) startEnd2
  let handover : Frac :=
    Frac.fmax (Frac.ofInt 0) (Frac.ofInt 100 - handoverScore * Frac.ofInt 10)
  ⟨jsRound structural, jsRound controlFlow, jsRoundInt structurednessScore,
   jsRoundInt namingScore, jsRound modularity, jsRound startEnd, jsRound handover⟩

/-- `getGrade`: letter grade from the total score. -/
def getGrade (score : Int) : String :=
  if score ≥ 90 then "A"
  else if score ≥ 80 then "B"
  else if score ≥ 70 then "C"
  else if score ≥ 60 then "D"
  else "F"

/-- The `gradeColors` lookup of `calculateProcessScore`. -/
def gradeColorOf (grade : String) : Option String :=
  if grade == "A" then some "#22C55E"
  else if grade == "B" then some "#84CC16"
  else if grade == "C" then some "#EAB308"
  else if grade == "D" then some "#F97316"
  else if grade == "F" then some "#DC2626"
  else none

/-- The sort key `severityOrder[a.severity] || 4`.  As in the source, the
falsy rank `0` of `critical` falls through to the default `4`. -/
def severityRank (i : Issue) : Nat :=
  jsOrNat
    (if i.severity == "critical" then some 0
     else if i.severity == "high" then some 1
     else if i.severity == "medium" then some 2
     else if i.severity == "low" then some 3
     else none) 4

/-- Insert an issue after all already-sorted issues of rank at most its own
(the stable placement of the JS sort). -/
def issueInsert (i : Issue) : List Issue → List Issue
  | [] => [i]
  | j :: js => if severityRank i < severityRank j then i :: j :: js else j :: issueInsert i js

/-- Stable sort of the issue list by severity rank (JS `issues.sort` with the
severity comparator; `Array.prototype.sort` is stable). -/
def sortIssues (l : List Issue) : List Issue := l.foldl (fun acc i => issueInsert i acc) []

/-- The `thresholds` classification strings of the score report. -/
structure Thresholds where
  cfc : String
  weightedCfc : String
  noajs : String
  noa : String
  structuredness : String
  naming : String
deriving DecidableEq, Repr

/-- The `compliance` flags of the score report. -/
structure Compliance where
  cardosoCFC : Bool
  mendling7PMG : Bool
  signavioNesting : Bool
  signavioHandover : Bool
deriving DecidableEq, Repr

/-- The full score report returned by `calculateProcessScore` (the JS
`cfcBreakdown` object is flattened into the `cfcXOR`/`cfcOR`/`cfcAND` fields). -/
structure ScoreReport where
  total : Int
  grade : String
  gradeColor : Option String
  cfc : Nat
  weightedCfc : Nat
  cfcXOR : Nat
  cfcOR : Nat
  cfcAND : Nat
  noajs : Nat
  noa : Nat
  gatewayCount : Nat
  startEventCount : Nat
  endEventCount : Nat
  dimensions : Dimensions
  nestingDepths : List (String × Nat)
  gatewayDetails : List GatewayDetail
  structuredness : StructResult
  handoverComplexity : HandoverResult
  namingQuality : NamingResult
  issues : List Issue
  thresholds : Thresholds
  compliance : Compliance
deriving DecidableEq, Repr

/-- The element loop of `calculateProcessScore`, folded over the elements
with the nesting depths precomputed. -/
def cfcScan (c : Canvas) : CfcAcc :=
  c.elements.foldl (cfcStep c (calculateNestingDepths c)) {}

/-- The issue list of `calculateProcessScore` before the final severity sort:
the element-loop issues followed by the structuredness, naming and
threshold-based pushes, in source order. -/
def scoreIssuesUnsorted (c : Canvas) : List Issue :=
  let acc := cfcScan c
  let structuredness := analyzeStructuredness c
  let namingQuality := analyzeNamingQuality c
  let issues1 := acc.issues ++
    structuredness.unmatchedSplits.map (fun item =>
      Issue.mk "warning" (some item.element.id) (some item.element.name)
        item.message none "medium" (some "7PMG G4")) ++
    structuredness.unmatchedJoins.map (fun item =>
      Issue.mk "warning" (some item.element.id) (some item.element.name)
        item.message none "medium" (some "7PMG G4"))
  let issues2 := issues1 ++ namingQuality.issues.map (fun item =>
    let lbl := item.label
    let iss := item.issue
    Issue.mk "info" (some item.elementId) none (s!"Label \"{lbl}\": {iss}")
      (some item.suggestion) "low" (some "7PMG G6"))
  let noajs := acc.noajs
  let issues3 := issues2 ++
    (if noajs > 50 then
      [Issue.mk "error" none none
        (s!"Model has {noajs} elements (>50). Error probability exceeds 50%. Consider decomposing.")
        none "critical" (some "7PMG G7")]
     else if noajs > 33 then
      [Issue.mk "warning" none none
        (s!"Model has {noajs} elements - approaching high complexity threshold (33)")
        none "medium" (some "7PMG G7")]
     else [])
  let orCount := acc.orGatewayCount
  let issues4 := issues3 ++
    (if orCount > 2 then
      [Issue.mk "warning" none none
        (s!"Model has {orCount} OR gateways. Consider replacing with XOR or AND.")
        none "medium" (some "7PMG G5")]
     else [])
  let totalCFC := acc.totalCFC
  let issues5 := issues4 ++
    (if totalCFC > 9 then
      [Issue.mk "warning" none none
        (s!"Control-Flow Complexity (CFC) of {totalCFC} exceeds threshold (9)")
        none "high" (some "Cardoso CFC")]
     else [])
  let weightedCFC := acc.weightedCFC
  let issues6 := issues5 ++
    (if weightedCFC > 15 then
      [Issue.mk "warning" none none
        (s!"Weighted CFC (with nesting) of {weightedCFC} indicates deeply nested complexity")
        none "high" (some "Signavio Flow")]
     else [])
  let startCount := acc.startEventCount
  let issues7 := issues6 ++
    (if startCount > 1 then
      [Issue.mk "warning" none none
        (s!"Model has {startCount} start events. Consider using single entry point.")
        none "low" (some "7PMG G3")]
     else [])
  let endCount := acc.endEventCount
  let issues8 := issues7 ++
    (if endCount > 1 then
      [Issue.mk "info" none none
        (s!"Model has {endCount} end events. Consider if single exit point is feasible.")
        none "low" (some "7PMG G3")]
     else [])
  let sScore := structuredness.score
  issues8 ++
    (if sScore < 70 then
      [Issue.mk "warning" none none
        (s!"Model structuredness is {sScore}%. Consider matching splits with joins.")
        none "medium" (some "7PMG G4")]
     else [])

/-- `calculateProcessScore`: the main scoring pass — element loop, the three
analyzers, threshold issues, dimension scores, weighted total, grade, and
the severity-sorted issue list. -/
def calculateProcessScore (c : Canvas) : ScoreReport :=
  let nestingDepths := calculateNestingDepths c
  let acc := cfcScan c
  let structuredness := analyzeStructuredness c
  let handoverComplexity := calculateHandoverComplexity c
  let namingQuality := analyzeNamingQuality c
  let dimensions := calculateDimensionScores acc.totalCFC acc.weightedCFC acc.noajs acc.noa
    acc.gatewayCount acc.orGatewayCount structuredness.score handoverComplexity.normalizedScore
    namingQuality.overallScore acc.startEventCount acc.endEventCount
  let totalScore := jsRound
    (Frac.ofInt dimensions.structural * Frac.mk 15 100 +
     Frac.ofInt dimensions.controlFlow * Frac.mk 25 100 +
     Frac.ofInt dimensions.structuredness * Frac.mk 20 100 +
     Frac.ofInt dimensions.naming * Frac.mk 15 100 +
     Frac.ofInt dimensions.modularity * Frac.mk 10 100 +
     Frac.ofInt dimensions.startEnd * Frac.mk 5 100 +
     Frac.ofInt dimensions.handover * Frac.mk 10 100)
  let grade := getGrade totalScore
  let thresholds : Thresholds :=
    ⟨if acc.totalCFC ≤ 3 then "low" else if acc.totalCFC ≤ 9 then "moderate" else "high",
     if acc.weightedCFC ≤ 5 then "low" else if acc.weightedCFC ≤ 15 then "moderate" else "high",
     if acc.noajs ≤ 17 then "low" else if acc.noajs ≤ 33 then "moderate" else "high",
     if acc.noa ≤ 12 then "low" else if acc.noa ≤ 26 then "moderate" else "high",
     if structuredness.score ≥ 80 then "low"
       else if structuredness.score ≥ 50 then "moderate" else "high",
     if namingQuality.overallScore ≥ 80 then "low"
       else if namingQuality.overallScore ≥ 50 then "moderate" else "high"⟩
  ⟨totalScore, grade, gradeColorOf grade, acc.totalCFC, acc.weightedCFC,
   acc.cfcXOR, acc.cfcOR, acc.cfcAND, acc.noajs, acc.noa, acc.gatewayCount,
   acc.startEventCount, acc.endEventCount, dimensions, nestingDepths, acc.gatewayDetails,
   structuredness, handoverComplexity, namingQuality, sortIssues (scoreIssuesUnsorted c),
   thresholds, ⟨true, true, true, handoverComplexity.hasRoleData⟩⟩

/-! Helper lemmas shared by several claims. -/

theorem foldl_inv {σ α : Type} (step : σ → α → σ) (Q : σ → Prop)
    (pres : ∀ s b, Q s → Q (step s b)) :
    ∀ (l : List α) (init : σ), Q init → Q (l.foldl step init) := by
  intro l
  induction l with
  | nil => intro init h; exact h
  | cons b l ih => intro init h; exact ih (step init b) (pres init b h)

theorem foldl_reach {σ α : Type} (step : σ → α → σ) (I Q : σ → Prop) (a : α)
    (presI : ∀ s b, I s → I (step s b))
    (est : ∀ s, I s → Q (step s a))
    (presQ : ∀ s b, Q s → Q (step s b)) :
    ∀ (l : List α) (init : σ), a ∈ l → I init → Q (l.foldl step init) := by
  intro l
  induction l with
  | nil => intro init ha; exact absurd ha (List.not_mem_nil a)
  | cons b l ih =>
    intro init ha hI
    rcases List.mem_cons.mp ha with h | h
    · subst h
      exact foldl_inv step Q presQ l (step init a) (est init hI)
    · exact ih (step init b) h (presI init b hI)

theorem lookup_setDepth_self (d : List (String × Nat)) (k : String) (v : Nat) :
    lookupDepth (setDepth d k v) k = some v := by
  induction d with
  | nil => simp [setDepth, lookupDepth]
  | cons p d ih =>
    obtain ⟨pk, pv⟩ := p
    by_cases h : pk = k
    · subst h; simp [setDepth, lookupDepth]
    · simp [setDepth, lookupDepth, h, ih]

theorem lookup_setDepth_ne (d : List (String × Nat)) (k j : String) (v : Nat)
    (h : k ≠ j) : lookupDepth (setDepth d k v) j = lookupDepth d j := by
  induction d with
  | nil => simp [setDepth, lookupDepth, h]
  | cons p d ih =>
    obtain ⟨pk, pv⟩ := p
    by_cases hpk : pk = k
    · subst hpk; simp [setDepth, lookupDepth, h]
    · by_cases hpj : pk = j
      · subst hpj; simp [setDepth, lookupDepth, hpk, ih]
      · simp [setDepth, lookupDepth, hpk, hpj, ih]

theorem mem_issueInsert (a i : Issue) (l : List Issue) :
    a ∈ issueInsert i l ↔ a = i ∨ a ∈ l := by
  induction l with
  | nil => simp [issueInsert]
  | cons j js ih =>
    simp only [issueInsert]
    split
    · simp [List.mem_cons]
    · simp only [List.mem_cons, ih]
      tauto

theorem mem_sortIssues_aux (a : Issue) :
    ∀ (l acc : List Issue),
      (a ∈ l.foldl (fun acc i => issueInsert i acc) acc) ↔ a ∈ acc ∨ a ∈ l := by
  intro l
  induction l with
  | nil => simp
  | cons i l ih =>
    intro acc
    simp only [List.foldl_cons, ih, mem_issueInsert, List.mem_cons]
    tauto

theorem mem_sortIssues (a : Issue) (l : List Issue) : a ∈ sortIssues l ↔ a ∈ l := by
  simp [sortIssues, mem_sortIssues_aux]

theorem tableLookup_mem :
    ∀ (tbl : List (String × TypeConfig)) (t : String) (cfg : TypeConfig),
      tableLookup tbl t = some cfg → ∃ k, (k, cfg) ∈ tbl := by
  intro tbl
  induction tbl with
  | nil => intro t cfg h; simp [tableLookup] at h
  | cons p rest ih =>
    intro t cfg h
    obtain ⟨pk, pv⟩ := p
    by_cases heq : t == pk
    · simp only [tableLookup, heq, if_pos] at h
      injection h with h2
      exact ⟨pk, by simp [h2]⟩
    · simp only [tableLookup, heq] at h
      obtain ⟨k, hk⟩ := ih t cfg h
      exact ⟨k, List.mem_cons_of_mem _ hk⟩

theorem gateway_config_cases (t : String) (cfg : TypeConfig)
    (h : ELEMENT_TYPES t = some cfg) (hg : cfg.isGateway = true) :
    cfg = ⟨true, some "XOR", some .fanOut⟩ ∨
    cfg = ⟨true, some "AND", some .constOne⟩ ∨
    cfg = ⟨true, some "OR", some .expMinusOne⟩ ∨
    cfg = ⟨true, some "COMPLEX", some .expMinusOne⟩ := by
  obtain ⟨k, hk⟩ := tableLookup_mem typeTable t cfg h
  have hall : ∀ p ∈ typeTable, p.2.isGateway = true →
      p.2 = (⟨true, some "XOR", some .fanOut⟩ : TypeConfig) ∨
      p.2 = (⟨true, some "AND", some .constOne⟩ : TypeConfig) ∨
      p.2 = (⟨true, some "OR", some .expMinusOne⟩ : TypeConfig) ∨
      p.2 = (⟨true, some "COMPLEX", some .expMinusOne⟩ : TypeConfig) := by decide
  exact hall (k, cfg) hk hg

/-! Claim C1: base CFC formulas. -/

/-- The per-element CFC contribution as the specification states it: for a
gateway-kind node the formula keyed by its `cfcType` applied to the fan-out
(`fanOut` for XOR including the Event-Based gateway, constant 1 for AND,
`2^fanOut - 1` for OR and COMPLEX), and zero when the fan-out is at most 1
or the node is not a gateway. -/
def claimedCfcContribution (c : Canvas) (el : Element) : Nat :=
  match ELEMENT_TYPES el.type with
  | none => 0
  | some cfg =>
    if cfg.isGateway then
      let fanOut := (getOutgoingFlows c el.id).length
      if fanOut > 1 then
        if cfg.cfcType == some "XOR" then fanOut
        else if cfg.cfcType == some "AND" then 1
        else if cfg.cfcType == some "OR" || cfg.cfcType == some "COMPLEX" then 2 ^ fanOut - 1
        else 0
      else 0
    else 0

set_option maxHeartbeats 1600000 in
theorem cfcStep_totalCFC (c : Canvas) (depths : List (String × Nat)) (acc : CfcAcc)
    (el : Element) :
    (cfcStep c depths acc el).totalCFC = acc.totalCFC + claimedCfcContribution c el := by
  cases hty : ELEMENT_TYPES el.type with
  | none => simp [cfcStep, claimedCfcContribution, hty]
  | some cfg =>
    by_cases hg : cfg.isGateway
    · rcases gateway_config_cases el.type cfg hty hg with h | h | h | h <;> subst h <;>
        by_cases ho : (getOutgoingFlows c el.id).length > 1 <;>
        simp only [cfcStep, claimedCfcContribution, hty, ho, CfcFormula.apply] <;>
        simp [ho, CfcFormula.apply] <;> (repeat' split) <;> simp
    · simp [cfcStep, claimedCfcContribution, hty, hg]

theorem cfcScan_totalCFC_aux (c : Canvas) (depths : List (String × Nat)) :
    ∀ (l : List Element) (acc : CfcAcc),
      (l.foldl (cfcStep c depths) acc).totalCFC =
        acc.totalCFC + (l.map (claimedCfcContribution c)).sum := by
  intro l
  induction l with
  | nil => simp
  | cons el l ih =>
    intro acc
    simp [List.foldl_cons, ih, cfcStep_totalCFC, Nat.add_assoc]

/-- C1: for every graph, `totalCFC` is the sum over all elements of the
claimed contribution: the `cfcType`-keyed formula (`fanOut` for XOR
including the Event-Based gateway, 1 for AND, `2^fanOut - 1` for OR and
COMPLEX) applied to the fan-out of each split gateway, with gateways of
fan-out at most one (and non-gateways) contributing zero. -/
theorem cfc_base_formula (c : Canvas) :
    (calculateProcessScore c).cfc = (c.elements.map (claimedCfcContribution c)).sum := by
  have hrfl : (calculateProcessScore c).cfc = (cfcScan c).totalCFC := rfl
  rw [hrfl]
  unfold cfcScan
  rw [cfcScan_totalCFC_aux]
  simp

/-! Claim C2: the end-to-end scenario. -/

/-- The end-to-end scenario graph: Start, XOR gateway with fan-out 2, two
labeled tasks, and a single End event into which both task paths converge
without a join gateway. -/
def scenarioCanvas : Canvas :=
  ⟨[⟨"s", "StartEvent", "", none, none⟩,
    ⟨"g", "ExclusiveGateway", "", none, none⟩,
    ⟨"t1", "UserTask", "Process Order", none, none⟩,
    ⟨"t2", "UserTask", "Cancel Order", none, none⟩,
    ⟨"e", "EndEvent", "", none, none⟩],
   [⟨"c1", "s", "g", "SequenceFlow", ""⟩,
    ⟨"c2", "g", "t1", "SequenceFlow", ""⟩,
    ⟨"c3", "g", "t2", "SequenceFlow", ""⟩,
    ⟨"c4", "t1", "e", "SequenceFlow", ""⟩,
    ⟨"c5", "t2", "e", "SequenceFlow", ""⟩]⟩

/-- C2: on the end-to-end scenario graph the report has `totalCFC = 2` and
`weightedCFC = 2`, the gateway's nesting depth is 1, and the issue list
contains an unmatched-XOR-split issue for the gateway. -/
theorem endToEnd_scenario :
    (calculateProcessScore scenarioCanvas).cfc = 2 ∧
    (calculateProcessScore scenarioCanvas).weightedCfc = 2 ∧
    lookupDepth (calculateProcessScore scenarioCanvas).nestingDepths "g" = some 1 ∧
    ∃ i ∈ (calculateProcessScore scenarioCanvas).issues,
      i.elementId = some "g" ∧ i.severity = "medium" ∧
      i.message = "XOR split without matching XOR join" := by decide

/-! Claim C3: vacuous defaults on the empty graph. -/

/-- The empty canvas: no nodes and no edges. -/
def emptyCanvas : Canvas := ⟨[], []⟩

/-- C3: the empty graph scores total 100 with grade A, an empty issue list,
structuredness score 100 and naming score 100 (every analyzer returns its
vacuous default; all guards against empty divisions are taken). -/
theorem empty_graph_defaults :
    (calculateProcessScore emptyCanvas).total = 100 ∧
    (calculateProcessScore emptyCanvas).grade = "A" ∧
    (calculateProcessScore emptyCanvas).issues = [] ∧
    (calculateProcessScore emptyCanvas).structuredness.score = 100 ∧
    (calculateProcessScore emptyCanvas).namingQuality.overallScore = 100 := by decide

/-! Claim C5: naming monotonicity. -/

/-- C5: under `analyzeLabel`, "Review Application" scores strictly higher
than "Application Reviewing", which scores strictly higher than
"Processing", which scores strictly higher than the empty label, whose
score is exactly 0. -/
theorem naming_monotonicity :
    (analyzeLabel "Application Reviewing" "UserTask").score.toRat <
      (analyzeLabel "Review Application" "UserTask").score.toRat ∧
    (analyzeLabel "Processing" "UserTask").score.toRat <
      (analyzeLabel "Application Reviewing" "UserTask").score.toRat ∧
    (analyzeLabel "" "UserTask").score.toRat <
      (analyzeLabel "Processing" "UserTask").score.toRat ∧
    (analyzeLabel "" "UserTask").score.toRat = 0 := by
  have h1 : (analyzeLabel "Review Application" "UserTask").score = ⟨1, 1⟩ := by decide
  have h2 : (analyzeLabel "Application Reviewing" "UserTask").score = ⟨7, 10⟩ := by decide
  have h3 : (analyzeLabel "Processing" "UserTask").score = ⟨60, 100⟩ := by decide
  have h4 : (analyzeLabel "" "UserTask").score = ⟨0, 1⟩ := by decide
  rw [h1, h2, h3, h4]
  norm_num [Frac.toRat]

/-! Claim C4: the structuredness score formula. -/

/-- Whether an element is a split gateway of the given `cfcType`. -/
def splitPred (c : Canvas) (t : String) (el : Element) : Bool :=
  match ELEMENT_TYPES el.type with
  | some cfg => cfg.isGateway && cfg.cfcType == some t && isSplitGateway c el.id
  | none => false

/-- Whether an element is a join gateway of the given `cfcType`. -/
def joinPred (c : Canvas) (t : String) (el : Element) : Bool :=
  match ELEMENT_TYPES el.type with
  | some cfg => cfg.isGateway && cfg.cfcType == some t && isJoinGateway c el.id
  | none => false

/-- Number of split gateways of one `cfcType` bucket, counted directly. -/
def splitCountOf (c : Canvas) (t : String) : Nat := c.elements.countP (splitPred c t)

/-- Number of join gateways of one `cfcType` bucket, counted directly. -/
def joinCountOf (c : Canvas) (t : String) : Nat := c.elements.countP (joinPred c t)

/-- Matched split/join pairs summed over the XOR, AND and OR buckets. -/
def claimedMatchedPairs (c : Canvas) : Nat :=
  min (splitCountOf c "XOR") (joinCountOf c "XOR") +
  min (splitCountOf c "AND") (joinCountOf c "AND") +
  min (splitCountOf c "OR") (joinCountOf c "OR")

/-- Aggregate split count over the XOR, AND and OR buckets. -/
def claimedTotalSplits (c : Canvas) : Nat :=
  splitCountOf c "XOR" + splitCountOf c "AND" + splitCountOf c "OR"

/-- Aggregate join count over the XOR, AND and OR buckets. -/
def claimedTotalJoins (c : Canvas) : Nat :=
  joinCountOf c "XOR" + joinCountOf c "AND" + joinCountOf c "OR"

/-- The structuredness score as the specification states it:
`round(100 * matchedPairs / totalSplits)` when `totalSplits > 0`, else 100,
minus a flat 10-point penalty when the aggregate split count differs from
the aggregate join count, floored at 0. -/
def claimedStructScore (c : Canvas) : Int :=
  let base : Int :=
    if claimedTotalSplits c > 0 then
      jsRound (Frac.ofInt (100 * (claimedMatchedPairs c : Int)) /
        Frac.ofInt (claimedTotalSplits c))
    else 100
  let penalty : Int := if claimedTotalSplits c ≠ claimedTotalJoins c then 10 else 0
  max 0 (base - penalty)

theorem structBucketStep_counts (c : Canvas) (b : StructBuckets) (el : Element) :
    (structBucketStep c b el).splitsXOR.length =
      b.splitsXOR.length + (if splitPred c "XOR" el then 1 else 0) ∧
    (structBucketStep c b el).splitsAND.length =
      b.splitsAND.length + (if splitPred c "AND" el then 1 else 0) ∧
    (structBucketStep c b el).splitsOR.length =
      b.splitsOR.length + (if splitPred c "OR" el then 1 else 0) ∧
    (structBucketStep c b el).joinsXOR.length =
      b.joinsXOR.length + (if joinPred c "XOR" el then 1 else 0) ∧
    (structBucketStep c b el).joinsAND.length =
      b.joinsAND.length + (if joinPred c "AND" el then 1 else 0) ∧
    (structBucketStep c b el).joinsOR.length =
      b.joinsOR.length + (if joinPred c "OR" el then 1 else 0) := by
  cases hty : ELEMENT_TYPES el.type with
  | none => simp [structBucketStep, splitPred, joinPred, hty]
  | some cfg =>
    by_cases hg : cfg.isGateway
    · cases hct : cfg.cfcType with
      | none => simp [structBucketStep, splitPred, joinPred, hty, hct, hg]
      | some t0 =>
        by_cases hs : isSplitGateway c el.id <;>
          by_cases hj : isJoinGateway c el.id <;>
          by_cases h1 : t0 = "XOR" <;> by_cases h2 : t0 = "AND" <;> by_cases h3 : t0 = "OR" <;>
          simp_all [structBucketStep, splitPred, joinPred]
    · simp [structBucketStep, splitPred, joinPred, hty, hg]

theorem structScan_counts (c : Canvas) :
    ∀ (l : List Element) (b : StructBuckets),
      (l.foldl (structBucketStep c) b).splitsXOR.length =
        b.splitsXOR.length + l.countP (splitPred c "XOR") ∧
      (l.foldl (structBucketStep c) b).splitsAND.length =
        b.splitsAND.length + l.countP (splitPred c "AND") ∧
      (l.foldl (structBucketStep c) b).splitsOR.length =
        b.splitsOR.length + l.countP (splitPred c "OR") ∧
      (l.foldl (structBucketStep c) b).joinsXOR.length =
        b.joinsXOR.length + l.countP (joinPred c "XOR") ∧
      (l.foldl (structBucketStep c) b).joinsAND.length =
        b.joinsAND.length + l.countP (joinPred c "AND") ∧
      (l.foldl (structBucketStep c) b).joinsOR.length =
        b.joinsOR.length + l.countP (joinPred c "OR") := by
  intro l
  induction l with
  | nil => intro b; simp
  | cons el l ih =>
    intro b
    obtain ⟨s1, s2, s3, j1, j2, j3⟩ := ih (structBucketStep c b el)
    obtain ⟨t1, t2, t3, u1, u2, u3⟩ := structBucketStep_counts c b el
    refine ⟨?_, ?_, ?_, ?_, ?_, ?_⟩ <;>
      simp only [List.foldl_cons, List.countP_cons, s1, s2, s3, j1, j2, j3, t1, t2, t3,
        u1, u2, u3] <;>
      split <;> omega

theorem jsRound_mul100 (m t : Int) :
    jsRound (Frac.ofInt m / Frac.ofInt t * Frac.ofInt 100) =
      jsRound (Frac.ofInt (100 * m) / Frac.ofInt t) := by
  show jsRound (Frac.mul (Frac.div (Frac.ofInt m) (Frac.ofInt t)) (Frac.ofInt 100)) =
    jsRound (Frac.div (Frac.ofInt (100 * m)) (Frac.ofInt t))
  by_cases ht : t < 0 <;>
    simp only [Frac.ofInt, Frac.div, Frac.mul, jsRound, ht, if_true, if_false] <;> ring_nf

theorem structuredness_score_eq (c : Canvas) :
    (analyzeStructuredness c).score = claimedStructScore c := by
  obtain ⟨s1, s2, s3, j1, j2, j3⟩ := structScan_counts c c.elements {}
  unfold analyzeStructuredness claimedStructScore claimedMatchedPairs claimedTotalSplits
    claimedTotalJoins splitCountOf joinCountOf
  simp only [s1, s2, s3, j1, j2, j3]
  simp only [List.length_nil, Nat.zero_add]
  split <;> split <;> simp [jsRound_mul100]

/-- The structuredness round-trip graph: one XOR split with fan-out 3, one
XOR join with fan-in 3, and nothing else unmatched. -/
def roundTripCanvas : Canvas :=
  ⟨[⟨"s", "StartEvent", "", none, none⟩,
    ⟨"g1", "ExclusiveGateway", "", none, none⟩,
    ⟨"a", "UserTask", "Check Stock", none, none⟩,
    ⟨"b", "UserTask", "Check Credit", none, none⟩,
    ⟨"d", "UserTask", "Check Address", none, none⟩,
    ⟨"g2", "ExclusiveGateway", "", none, none⟩,
    ⟨"e", "EndEvent", "", none, none⟩],
   [⟨"c1", "s", "g1", "SequenceFlow", ""⟩,
    ⟨"c2", "g1", "a", "SequenceFlow", ""⟩,
    ⟨"c3", "g1", "b", "SequenceFlow", ""⟩,
    ⟨"c4", "g1", "d", "SequenceFlow", ""⟩,
    ⟨"c5", "a", "g2", "SequenceFlow", ""⟩,
    ⟨"c6", "b", "g2", "SequenceFlow", ""⟩,
    ⟨"c7", "d", "g2", "SequenceFlow", ""⟩,
    ⟨"c8", "g2", "e", "SequenceFlow", ""⟩]⟩

/-- C4: for every graph the structuredness score is
`round(100 * matchedPairs / totalSplits)` when `totalSplits > 0` (else 100),
where `matchedPairs` sums `min(splitCount, joinCount)` over the XOR, AND and
OR buckets, minus a flat 10-point penalty when the aggregate split and join
counts differ, floored at 0; and the graph with exactly one XOR split of
fan-out 3 and one XOR join of fan-in 3 scores 100. -/
theorem structuredness_score_formula :
    (∀ c : Canvas, (analyzeStructuredness c).score = claimedStructScore c) ∧
    (analyzeStructuredness roundTripCanvas).score = 100 := by
  refine ⟨structuredness_score_eq, ?_⟩
  decide

/-! Claim C6: issue generation during CFC analysis. -/

theorem cfcStep_issues_mono (c : Canvas) (depths : List (String × Nat)) (acc : CfcAcc)
    (el : Element) (i : Issue) (h : i ∈ acc.issues) : i ∈ (cfcStep c depths acc el).issues := by
  cases hty : ELEMENT_TYPES el.type with
  | none => simpa [cfcStep, hty] using h
  | some cfg =>
    cases hf : cfg.cfcFormula <;>
      simp [cfcStep, hty, hf, apply_ite CfcAcc.issues] <;>
      (repeat' split) <;> simp_all [List.mem_append]

theorem cfcStep_or_issue (c : Canvas) (depths : List (String × Nat)) (acc : CfcAcc)
    (el : Element) (hty : el.type = "InclusiveGateway")
    (hf : 3 ≤ (getOutgoingFlows c el.id).length) :
    ∃ i ∈ (cfcStep c depths acc el).issues, i.severity = "high" ∧ i.elementId = some el.id := by
  have hcfg : ELEMENT_TYPES el.type = some ⟨true, some "OR", some .expMinusOne⟩ := by
    rw [hty]; rfl
  have ho : (getOutgoingFlows c el.id).length > 1 := by omega
  simp [cfcStep, hcfg, apply_ite CfcAcc.issues, ho, hf, List.mem_append]
  split <;> exact ⟨_, List.mem_append_right _ (List.mem_cons_self _ _), rfl, rfl⟩

theorem cfcStep_nesting_issue (c : Canvas) (depths : List (String × Nat)) (acc : CfcAcc)
    (el : Element) (hgt : isGatewayType el.type = true)
    (ho : 1 < (getOutgoingFlows c el.id).length)
    (hn : 3 ≤ jsOrNat (lookupDepth depths el.id) 1) :
    ∃ i ∈ (cfcStep c depths acc el).issues, i.severity = "medium" ∧ i.elementId = some el.id := by
  unfold isGatewayType at hgt
  cases hty : ELEMENT_TYPES el.type with
  | none => rw [hty] at hgt; simp at hgt
  | some cfg =>
    rw [hty] at hgt
    simp only [] at hgt
    rcases gateway_config_cases el.type cfg hty hgt with h | h | h | h <;> subst h <;>
      simp [cfcStep, hty, apply_ite CfcAcc.issues, ho, hn, List.mem_append] <;>
      (try split) <;>
      refine ⟨⟨"warning", some el.id, some el.name,
        s!"Gateway \"{nameOrUnnamed el.name}\" is nested {jsOrNat (lookupDepth depths el.id) 1} levels deep (complexity multiplier: {jsOrNat (lookupDepth depths el.id) 1}x)",
        none, "medium", some "7PMG G4"⟩, ?_, rfl, rfl⟩ <;> simp

theorem mem_cfcScan_issues (c : Canvas) (i : Issue) (h : i ∈ (cfcScan c).issues) :
    i ∈ (calculateProcessScore c).issues := by
  have heq : (calculateProcessScore c).issues = sortIssues (scoreIssuesUnsorted c) := rfl
  rw [heq, mem_sortIssues]
  simp only [scoreIssuesUnsorted, List.mem_append]
  tauto

/-- A COMPLEX gateway with fan-out 3 feeding three well-labeled tasks. -/
def complexCanvas : Canvas :=
  ⟨[⟨"g", "ComplexGateway", "Route Order", none, none⟩,
    ⟨"x", "UserTask", "Send Letter", none, none⟩,
    ⟨"y", "UserTask", "Check Stock", none, none⟩,
    ⟨"z", "UserTask", "Review Document", none, none⟩],
   [⟨"c1", "g", "x", "SequenceFlow", ""⟩,
    ⟨"c2", "g", "y", "SequenceFlow", ""⟩,
    ⟨"c3", "g", "z", "SequenceFlow", ""⟩]⟩

/-- C6 counterexample: `complexCanvas` holds a COMPLEX gateway with fan-out 3,
yet its score report contains no high-severity issue at all — the high-severity
fan-out warning is emitted only in the `case 'OR'` arm of the type switch, and
COMPLEX falls through to `default`. -/
theorem complex_gateway_no_high_issue :
    (∃ el ∈ complexCanvas.elements, el.id = "g" ∧ el.type = "ComplexGateway") ∧
    (ELEMENT_TYPES "ComplexGateway").map TypeConfig.cfcType = some (some "COMPLEX") ∧
    (getOutgoingFlows complexCanvas "g").length = 3 ∧
    (∀ i ∈ (calculateProcessScore complexCanvas).issues, ¬ i.severity = "high") := by decide

/-- C6 (amended): during CFC analysis a high-severity issue is emitted for
every OR (Inclusive) gateway with fan-out at least 3 — but not for COMPLEX
gateways, which the type switch ignores — and a medium-severity issue is
emitted for every split gateway (fan-out above 1) whose nesting depth is at
least 3. -/
theorem cfc_issue_generation :
    (∀ (c : Canvas) (el : Element), el ∈ c.elements → el.type = "InclusiveGateway" →
      3 ≤ (getOutgoingFlows c el.id).length →
      ∃ i ∈ (calculateProcessScore c).issues, i.severity = "high" ∧ i.elementId = some el.id) ∧
    (∀ (c : Canvas) (el : Element), el ∈ c.elements → isGatewayType el.type = true →
      1 < (getOutgoingFlows c el.id).length →
      3 ≤ jsOrNat (lookupDepth (calculateNestingDepths c) el.id) 1 →
      ∃ i ∈ (calculateProcessScore c).issues, i.severity = "medium" ∧ i.elementId = some el.id) := by
  constructor
  · intro c el hel hty hf
    have hq := foldl_reach (cfcStep c (calculateNestingDepths c)) (fun _ => True)
      (fun s => ∃ i ∈ s.issues, i.severity = "high" ∧ i.elementId = some el.id) el
      (fun _ _ _ => trivial)
      (fun s _ => cfcStep_or_issue c (calculateNestingDepths c) s el hty hf)
      (fun s b hQ => by
        obtain ⟨i, him, hp⟩ := hQ
        exact ⟨i, cfcStep_issues_mono c (calculateNestingDepths c) s b i him, hp⟩)
      c.elements {} hel trivial
    obtain ⟨i, him, hp⟩ := hq
    exact ⟨i, mem_cfcScan_issues c i him, hp⟩
  · intro c el hel hgt ho hn
    have hq := foldl_reach (cfcStep c (calculateNestingDepths c)) (fun _ => True)
      (fun s => ∃ i ∈ s.issues, i.severity = "medium" ∧ i.elementId = some el.id) el
      (fun _ _ _ => trivial)
      (fun s _ => cfcStep_nesting_issue c (calculateNestingDepths c) s el hgt ho hn)
      (fun s b hQ => by
        obtain ⟨i, him, hp⟩ := hQ
        exact ⟨i, cfcStep_issues_mono c (calculateNestingDepths c) s b i him, hp⟩)
      c.elements {} hel trivial
    obtain ⟨i, him, hp⟩ := hq
    exact ⟨i, mem_cfcScan_issues c i him, hp⟩

/-- Start, two nested XOR splits, then an OR gateway of fan-out 3 at nesting
depth 3 — exercising both issue rules at once. -/
def nestedCanvas : Canvas :=
  ⟨[⟨"s", "StartEvent", "", none, none⟩,
    ⟨"g1", "ExclusiveGateway", "", none, none⟩,
    ⟨"a1", "UserTask", "Check Stock", none, none⟩,
    ⟨"g2", "ExclusiveGateway", "", none, none⟩,
    ⟨"a2", "UserTask", "Check Credit", none, none⟩,
    ⟨"g3", "InclusiveGateway", "", none, none⟩,
    ⟨"x", "UserTask", "Send Letter", none, none⟩,
    ⟨"y", "UserTask", "Send Invoice", none, none⟩,
    ⟨"z", "UserTask", "Send Email", none, none⟩],
   [⟨"c1", "s", "g1", "SequenceFlow", ""⟩,
    ⟨"c2", "g1", "a1", "SequenceFlow", ""⟩,
    ⟨"c3", "g1", "g2", "SequenceFlow", ""⟩,
    ⟨"c4", "g2", "a2", "SequenceFlow", ""⟩,
    ⟨"c5", "g2", "g3", "SequenceFlow", ""⟩,
    ⟨"c6", "g3", "x", "SequenceFlow", ""⟩,
    ⟨"c7", "g3", "y", "SequenceFlow", ""⟩,
    ⟨"c8", "g3", "z", "SequenceFlow", ""⟩]⟩

/-- Witness for the amended C6 theorem: on `nestedCanvas` the OR gateway
`g3` (fan-out 3, nesting depth 3) receives both issues. -/
theorem cfc_issue_generation_witness :
    (∃ i ∈ (calculateProcessScore nestedCanvas).issues,
      i.severity = "high" ∧ i.elementId = some "g3") ∧
    (∃ i ∈ (calculateProcessScore nestedCanvas).issues,
      i.severity = "medium" ∧ i.elementId = some "g3") := by
  constructor
  · exact cfc_issue_generation.1 nestedCanvas ⟨"g3", "InclusiveGateway", "", none, none⟩
      (by decide) rfl (by decide)
  · exact cfc_issue_generation.2 nestedCanvas ⟨"g3", "InclusiveGateway", "", none, none⟩
      (by decide) (by decide) (by decide) (by decide)

/-! Claims C7 and C10: nesting-depth fallbacks and the weighted-CFC bound. -/

theorem lookup_setDepth_isSome (d : List (String × Nat)) (k j : String) (v : Nat)
    (h : (lookupDepth (setDepth d k v) j).isSome) : j = k ∨ (lookupDepth d j).isSome := by
  by_cases hjk : j = k
  · exact Or.inl hjk
  · right
    rwa [lookup_setDepth_ne d k j v (fun he => hjk he.symm)] at h

theorem bfsProcess_depths (c : Canvas) (f : Frame) (el : Element)
    (depths : List (String × Nat)) :
    (bfsProcess c f el depths).2.2 = depths ∨
    ∃ v, (bfsProcess c f el depths).2.2 = setDepth depths f.elementId v := by
  unfold bfsProcess
  dsimp only
  (repeat' split) <;> first
    | exact Or.inl rfl
    | exact Or.inr ⟨_, rfl⟩

theorem bfsLoop_inv (c : Canvas) :
    ∀ (fuel : Nat) (queue : List Frame) (visited : List String) (depths : List (String × Nat)),
      (∀ k, (lookupDepth depths k).isSome → k ∈ visited) →
      ((∀ k, (lookupDepth (bfsLoop c fuel queue visited depths).1 k).isSome →
          k ∈ (bfsLoop c fuel queue visited depths).2) ∧
        (∀ k, k ∈ visited → k ∈ (bfsLoop c fuel queue visited depths).2)) := by
  intro fuel
  induction fuel with
  | zero => intro queue visited depths h; exact ⟨h, fun _ hk => hk⟩
  | succ fuel ih =>
    intro queue visited depths h
    cases queue with
    | nil => exact ⟨h, fun _ hk => hk⟩
    | cons f rest =>
      simp only [bfsLoop]
      by_cases hv : visited.contains f.elementId
      · simp only [hv, if_pos]
        exact ih rest visited depths h
      · simp only [hv, Bool.false_eq_true, if_neg, Bool.not_eq_true]
        cases hfind : findElement c f.elementId with
        | none =>
          have h2 : ∀ k, (lookupDepth depths k).isSome → k ∈ f.elementId :: visited :=
            fun k hk => List.mem_cons_of_mem _ (h k hk)
          obtain ⟨p1, p2⟩ := ih rest (f.elementId :: visited) depths h2
          exact ⟨p1, fun k hk => p2 k (List.mem_cons_of_mem _ hk)⟩
        | some el =>
          have h2 : ∀ k, (lookupDepth (bfsProcess c f el depths).2.2 k).isSome →
              k ∈ f.elementId :: visited := by
            intro k hk
            rcases bfsProcess_depths c f el depths with hd | ⟨v, hd⟩
            · rw [hd] at hk
              exact List.mem_cons_of_mem _ (h k hk)
            · rw [hd] at hk
              rcases lookup_setDepth_isSome depths f.elementId k v hk with rfl | hk2
              · exact List.mem_cons_self _ _
              · exact List.mem_cons_of_mem _ (h k hk2)
          obtain ⟨p1, p2⟩ := ih _ (f.elementId :: visited) _ h2
          exact ⟨p1, fun k hk => p2 k (List.mem_cons_of_mem _ hk)⟩

theorem depthFallbackStep_lookup (acc : List (String × Nat)) (b : Element) (k : String) :
    lookupDepth (depthFallbackStep acc b) k = lookupDepth acc k ∨
    (k = b.id ∧ lookupDepth (depthFallbackStep acc b) k = some 1) := by
  unfold depthFallbackStep
  by_cases hk : k = b.id
  · subst hk
    (repeat' split) <;> simp_all [lookup_setDepth_self]
  · (repeat' split) <;>
      first
      | exact Or.inl rfl
      | exact Or.inl (lookup_setDepth_ne acc b.id k 1 (fun he => hk he.symm))

theorem depthFallback_gateway_one (c : Canvas) (el : Element) (hel : el ∈ c.elements)
    (hg : isGatewayType el.type = true) (depths : List (String × Nat))
    (h0 : lookupDepth depths el.id = none ∨ lookupDepth depths el.id = some 1) :
    lookupDepth (applyDepthFallback c depths) el.id = some 1 := by
  unfold applyDepthFallback
  refine foldl_reach depthFallbackStep
    (fun d => lookupDepth d el.id = none ∨ lookupDepth d el.id = some 1)
    (fun d => lookupDepth d el.id = some 1) el ?_ ?_ ?_ c.elements depths hel h0
  · intro d b hI
    rcases depthFallbackStep_lookup d b el.id with he | ⟨_, he⟩
    · rw [he]; exact hI
    · exact Or.inr he
  · intro d hI
    unfold depthFallbackStep
    rcases hI with h | h <;> simp [hg, h, lookup_setDepth_self]
  · intro d b hQ
    rcases depthFallbackStep_lookup d b el.id with he | ⟨_, he⟩
    · rw [he]; exact hQ
    · exact he

theorem depthFallback_gateway_pos (c : Canvas) (el : Element) (hel : el ∈ c.elements)
    (hg : isGatewayType el.type = true) (depths : List (String × Nat)) :
    ∃ d, lookupDepth (applyDepthFallback c depths) el.id = some d ∧ 1 ≤ d := by
  unfold applyDepthFallback
  refine foldl_reach depthFallbackStep (fun _ => True)
    (fun d => ∃ v, lookupDepth d el.id = some v ∧ 1 ≤ v) el
    (fun _ _ _ => trivial) ?_ ?_ c.elements depths hel trivial
  · intro d _
    unfold depthFallbackStep
    cases hl : lookupDepth d el.id with
    | none => exact ⟨1, by simp [hg, hl, lookup_setDepth_self]⟩
    | some v =>
      cases v with
      | zero => exact ⟨1, by simp [hg, hl, lookup_setDepth_self]⟩
      | succ n => exact ⟨n + 1, by simp [hg, hl], by omega⟩
  · intro d b hQ
    obtain ⟨v, hv, h1⟩ := hQ
    rcases depthFallbackStep_lookup d b el.id with he | ⟨_, he⟩
    · exact ⟨v, by rw [he]; exact hv, h1⟩
    · exact ⟨1, he, le_refl 1⟩

theorem lookup_map_ones (l : List Element) (k : String)
    (h : ∃ el ∈ l, el.id = k) : lookupDepth (l.map fun el => (el.id, 1)) k = some 1 := by
  induction l with
  | nil => simp at h
  | cons b l ih =>
    obtain ⟨el, hmem, hid⟩ := h
    rcases List.mem_cons.mp hmem with rfl | hmem2
    · simp [lookupDepth, hid]
    · by_cases hbk : b.id = k
      · simp [lookupDepth, hbk]
      · simp only [List.map_cons, lookupDepth]
        rw [if_neg (by simpa using hbk)]
        exact ih ⟨el, hmem2, hid⟩

/-- C7: every gateway the traversal never visits is assigned depth 1 by the
fallback pass, and when the graph has no start-event node at all, every
gateway is assigned depth 1 outright. -/
theorem nesting_depth_fallbacks :
    (∀ (c : Canvas) (el : Element), el ∈ c.elements → isGatewayType el.type = true →
      el.id ∉ nestingVisited c → lookupDepth (calculateNestingDepths c) el.id = some 1) ∧
    (∀ (c : Canvas) (el : Element), el ∈ c.elements → isGatewayType el.type = true →
      nestingStartEvents c = [] → lookupDepth (calculateNestingDepths c) el.id = some 1) := by
  have hempty : ∀ (c : Canvas) (el : Element), el ∈ c.elements → isGatewayType el.type = true →
      (nestingStartEvents c).isEmpty = true →
      lookupDepth (calculateNestingDepths c) el.id = some 1 := by
    intro c el hel hg he
    unfold calculateNestingDepths
    rw [if_pos he]
    exact lookup_map_ones _ _ ⟨el, List.mem_filter.mpr ⟨hel, hg⟩, rfl⟩
  constructor
  · intro c el hel hg hnv
    by_cases he : (nestingStartEvents c).isEmpty
    · exact hempty c el hel hg he
    · unfold calculateNestingDepths
      rw [if_neg he]
      apply depthFallback_gateway_one c el hel hg
      left
      unfold nestingVisited at hnv
      rw [if_neg he] at hnv
      have hinv := (bfsLoop_inv c (nestingFuel c)
        ((nestingStartEvents c).map (fun el => Frame.mk el.id 0 [])) [] []
        (by intro k hk; simp [lookupDepth] at hk)).1
      cases hl : lookupDepth (nestingTraversal c).1 el.id with
      | none => rfl
      | some v =>
        exfalso
        apply hnv
        have hsome : (lookupDepth (nestingTraversal c).1 el.id).isSome := by rw [hl]; rfl
        exact hinv el.id hsome
  · intro c el hel hg he
    exact hempty c el hel hg (by simp [he])

/-- A start event plus a gateway component disconnected from it. -/
def disconnectedCanvas : Canvas :=
  ⟨[⟨"s", "StartEvent", "", none, none⟩,
    ⟨"g", "ExclusiveGateway", "", none, none⟩,
    ⟨"t1", "UserTask", "Check Stock", none, none⟩,
    ⟨"t2", "UserTask", "Check Credit", none, none⟩],
   [⟨"c1", "g", "t1", "SequenceFlow", ""⟩,
    ⟨"c2", "g", "t2", "SequenceFlow", ""⟩]⟩

/-- A gateway in a graph with no start event at all. -/
def noStartCanvas : Canvas :=
  ⟨[⟨"gx", "ParallelGateway", "", none, none⟩,
    ⟨"u1", "UserTask", "Send Letter", none, none⟩,
    ⟨"u2", "UserTask", "Send Email", none, none⟩],
   [⟨"k1", "gx", "u1", "SequenceFlow", ""⟩,
    ⟨"k2", "gx", "u2", "SequenceFlow", ""⟩]⟩

/-- Witness for C7: the disconnected gateway and the gateway of the
start-event-free graph both end up with depth 1. -/
theorem nesting_depth_fallbacks_witness :
    lookupDepth (calculateNestingDepths disconnectedCanvas) "g" = some 1 ∧
    lookupDepth (calculateNestingDepths noStartCanvas) "gx" = some 1 := by
  constructor
  · exact nesting_depth_fallbacks.1 disconnectedCanvas
      ⟨"g", "ExclusiveGateway", "", none, none⟩ (by decide) (by decide) (by decide)
  · exact nesting_depth_fallbacks.2 noStartCanvas
      ⟨"gx", "ParallelGateway", "", none, none⟩ (by decide) (by decide) (by decide)

theorem jsOrNat_one_pos (o : Option Nat) : 1 ≤ jsOrNat o 1 := by
  cases o with
  | none => simp [jsOrNat]
  | some v =>
    by_cases hv : v = 0
    · simp [jsOrNat, hv]
    · simp [jsOrNat, hv]
      omega

theorem cfc_weight_step (a w b n : Nat) (h : a ≤ w) (hn : 1 ≤ n) : a + b ≤ w + b * n := by
  nlinarith

theorem cfcStep_cfc_le (c : Canvas) (depths : List (String × Nat)) (acc : CfcAcc)
    (el : Element) (h : acc.totalCFC ≤ acc.weightedCFC) :
    (cfcStep c depths acc el).totalCFC ≤ (cfcStep c depths acc el).weightedCFC := by
  have hn := jsOrNat_one_pos (lookupDepth depths el.id)
  cases hty : ELEMENT_TYPES el.type with
  | none => simpa [cfcStep, hty] using h
  | some cfg =>
    cases hf : cfg.cfcFormula <;>
      simp [cfcStep, hty, hf, apply_ite CfcAcc.totalCFC, apply_ite CfcAcc.weightedCFC] <;>
      (repeat' split) <;>
      first
      | exact h
      | exact cfc_weight_step _ _ _ _ h hn

/-- C10: every gateway's entry in the nesting-depth map is at least 1, and
consequently `weightedCFC` is always at least `totalCFC` (every split's
multiplier — the depth entry with the `|| 1` fallback — is at least 1). -/
theorem nesting_weighted_cfc :
    (∀ (c : Canvas) (el : Element), el ∈ c.elements → isGatewayType el.type = true →
      ∃ d, lookupDepth (calculateNestingDepths c) el.id = some d ∧ 1 ≤ d) ∧
    (∀ c : Canvas, (calculateProcessScore c).cfc ≤ (calculateProcessScore c).weightedCfc) := by
  constructor
  · intro c el hel hg
    unfold calculateNestingDepths
    split
    · exact ⟨1, lookup_map_ones _ _ ⟨el, List.mem_filter.mpr ⟨hel, hg⟩, rfl⟩, le_refl 1⟩
    · exact depthFallback_gateway_pos c el hel hg _
  · intro c
    have h1 : (calculateProcessScore c).cfc = (cfcScan c).totalCFC := rfl
    have h2 : (calculateProcessScore c).weightedCfc = (cfcScan c).weightedCFC := rfl
    rw [h1, h2]
    unfold cfcScan
    exact foldl_inv _ (fun s => s.totalCFC ≤ s.weightedCFC)
      (fun s b hq => cfcStep_cfc_le c _ s b hq) c.elements {} (by simp)

/-- Witness for C10 on the end-to-end scenario graph. -/
theorem nesting_weighted_cfc_witness :
    (∃ d, lookupDepth (calculateNestingDepths scenarioCanvas) "g" = some d ∧ 1 ≤ d) ∧
    (calculateProcessScore scenarioCanvas).cfc ≤
      (calculateProcessScore scenarioCanvas).weightedCfc := by
  constructor
  · exact nesting_weighted_cfc.1 scenarioCanvas
      ⟨"g", "ExclusiveGateway", "", none, none⟩ (by decide) (by decide)
  · exact nesting_weighted_cfc.2 scenarioCanvas

/-! Claim C8: the Start/End dimension formula. -/

theorem Frac.num_mk (n d : Int) : (Frac.mk n d).num = n := rfl

theorem Frac.den_mk (n d : Int) : (Frac.mk n d).den = d := rfl

/-- Start events as counted by the score pass: known element kinds whose
kind string contains `StartEvent`. -/
def claimedStartEvents (c : Canvas) : Nat :=
  c.elements.countP (fun el => (ELEMENT_TYPES el.type).isSome && strContains el.type "StartEvent")

/-- End events as counted by the score pass: known element kinds equal to
`EndEvent`. -/
def claimedEndEvents (c : Canvas) : Nat :=
  c.elements.countP (fun el => (ELEMENT_TYPES el.type).isSome && el.type == "EndEvent")

theorem cfcStep_event_counts (c : Canvas) (depths : List (String × Nat)) (acc : CfcAcc)
    (el : Element) :
    (cfcStep c depths acc el).startEventCount = acc.startEventCount +
      (if ((ELEMENT_TYPES el.type).isSome && strContains el.type "StartEvent") = true
        then 1 else 0) ∧
    (cfcStep c depths acc el).endEventCount = acc.endEventCount +
      (if ((ELEMENT_TYPES el.type).isSome && (el.type == "EndEvent")) = true
        then 1 else 0) := by
  cases hty : ELEMENT_TYPES el.type with
  | none => simp [cfcStep, hty]
  | some cfg =>
    cases hf : cfg.cfcFormula <;>
      simp [cfcStep, hty, hf, apply_ite CfcAcc.startEventCount,
        apply_ite CfcAcc.endEventCount] <;>
      (repeat' split) <;> simp

theorem cfcScan_event_counts (c : Canvas) :
    ∀ (l : List Element) (acc : CfcAcc),
      (l.foldl (cfcStep c (calculateNestingDepths c)) acc).startEventCount =
        acc.startEventCount +
          l.countP (fun el => (ELEMENT_TYPES el.type).isSome && strContains el.type "StartEvent") ∧
      (l.foldl (cfcStep c (calculateNestingDepths c)) acc).endEventCount =
        acc.endEventCount +
          l.countP (fun el => (ELEMENT_TYPES el.type).isSome && el.type == "EndEvent") := by
  intro l
  induction l with
  | nil => intro acc; simp
  | cons el l ih =>
    intro acc
    obtain ⟨i1, i2⟩ := ih (cfcStep c (calculateNestingDepths c) acc el)
    obtain ⟨e1, e2⟩ := cfcStep_event_counts c (calculateNestingDepths c) acc el
    constructor <;>
      simp only [List.foldl_cons, List.countP_cons, i1, i2, e1, e2] <;>
      split <;> omega

theorem startEnd_dimension_eq (tc wc nj na gc oc : Nat) (ss : Int) (hs : Frac) (ns : Int)
    (s e : Nat) :
    (calculateDimensionScores tc wc nj na gc oc ss hs ns s e).startEnd =
      max 0 (100 - (if 1 < s then 15 * ((s : Int) - 1) else 0)
        - (if 2 < e then 10 * ((e : Int) - 2) else 0)) := by
  unfold calculateDimensionScores
  by_cases hs1 : s > 1 <;> by_cases he1 : e > 2 <;>
    simp only [hs1, he1, if_true, if_false, Frac.sub_def, Frac.mul_def, Frac.ofInt,
      Frac.sub, Frac.mul, Frac.fmax, Frac.blt, jsRound] <;>
    (try split)
  all_goals simp_all
  all_goals omega

/-- C8: the Start/End dimension score is 100 minus 15 per start event beyond
the first and minus 10 per end event beyond the first two, floored at 0. -/
theorem startEnd_dimension_formula (c : Canvas) :
    (calculateProcessScore c).dimensions.startEnd =
      max 0 (100 - (if 1 < claimedStartEvents c then 15 * ((claimedStartEvents c : Int) - 1) else 0)
        - (if 2 < claimedEndEvents c then 10 * ((claimedEndEvents c : Int) - 2) else 0)) := by
  have hd : (calculateProcessScore c).dimensions =
      calculateDimensionScores (cfcScan c).totalCFC (cfcScan c).weightedCFC (cfcScan c).noajs
        (cfcScan c).noa (cfcScan c).gatewayCount (cfcScan c).orGatewayCount
        (analyzeStructuredness c).score (calculateHandoverComplexity c).normalizedScore
        (analyzeNamingQuality c).overallScore (cfcScan c).startEventCount
        (cfcScan c).endEventCount := rfl
  rw [hd, startEnd_dimension_eq]
  obtain ⟨h1, h2⟩ := cfcScan_event_counts c c.elements {}
  have e1 : (cfcScan c).startEventCount = claimedStartEvents c := by
    unfold cfcScan claimedStartEvents
    rw [h1]
    simp
  have e2 : (cfcScan c).endEventCount = claimedEndEvents c := by
    unfold cfcScan claimedEndEvents
    rw [h2]
    simp
  rw [e1, e2]

/-! Claim C9: the handover sentinel rule. -/

theorem handoverStep_roleless (c : Canvas) (st : HandoverState) (conn : Connection)
    (hs : ((findElement c conn.sourceId).map roleOf).getD "default" = "default")
    (ht : ((findElement c conn.targetId).map roleOf).getD "default" = "default") :
    handoverStep c st conn = st := by
  cases h1 : findElement c conn.sourceId with
  | none => simp [handoverStep, h1]
  | some src =>
    cases h2 : findElement c conn.targetId with
    | none => simp [handoverStep, h1, h2]
    | some tgt =>
      rw [h1] at hs
      rw [h2] at ht
      simp at hs ht
      simp [handoverStep, h1, h2, hs, ht]

/-- C9: an edge whose two endpoints both carry the sentinel role leaves the
handover state (base score, seen roles, transitions) entirely unchanged, and
`hasRoleData` is false for every graph in which no node has a role. -/
theorem handover_sentinel :
    (∀ (c : Canvas) (st : HandoverState) (conn : Connection),
      ((findElement c conn.sourceId).map roleOf).getD "default" = "default" →
      ((findElement c conn.targetId).map roleOf).getD "default" = "default" →
      handoverStep c st conn = st) ∧
    (∀ c : Canvas, (∀ el ∈ c.elements, roleOf el = "default") →
      (calculateHandoverComplexity c).hasRoleData = false) := by
  constructor
  · exact handoverStep_roleless
  · intro c hall
    have hfold : c.connections.foldl (handoverStep c) ⟨Frac.ofInt 0, [], []⟩ =
        ⟨Frac.ofInt 0, [], []⟩ := by
      apply foldl_inv (handoverStep c) (fun st => st = ⟨Frac.ofInt 0, [], []⟩)
      · intro s b hq
        subst hq
        apply handoverStep_roleless
        · cases h1 : findElement c b.sourceId with
          | none => simp
          | some src => simp [hall src (List.mem_of_find?_eq_some h1)]
        · cases h2 : findElement c b.targetId with
          | none => simp
          | some tgt => simp [hall tgt (List.mem_of_find?_eq_some h2)]
      · rfl
    have heq : (calculateHandoverComplexity c).hasRoleData =
        (let st := c.connections.foldl (handoverStep c) ⟨Frac.ofInt 0, [], []⟩
         st.seenRoles.length > 0 && !(st.seenRoles.contains "default")) := rfl
    rw [heq]
    simp [hfold]

/-- Two role-less tasks joined by one sequence flow. -/
def rolelessCanvas : Canvas :=
  ⟨[⟨"a", "UserTask", "Send Letter", none, none⟩,
    ⟨"b", "UserTask", "Check Stock", none, none⟩],
   [⟨"e1", "a", "b", "SequenceFlow", ""⟩]⟩

/-- Witness for C9 on the role-less two-task graph. -/
theorem handover_sentinel_witness :
    handoverStep rolelessCanvas ⟨Frac.ofInt 0, [], []⟩ ⟨"e1", "a", "b", "SequenceFlow", ""⟩ =
      ⟨Frac.ofInt 0, [], []⟩ ∧
    (calculateHandoverComplexity rolelessCanvas).hasRoleData = false := by
  constructor
  · exact handover_sentinel.1 rolelessCanvas ⟨Frac.ofInt 0, [], []⟩
      ⟨"e1", "a", "b", "SequenceFlow", ""⟩ (by decide) (by decide)
  · exact handover_sentinel.2 rolelessCanvas (by decide)

end BPMN
